import Mathlib

/-! Pixel primitives of `libfreerdp/primitives/prim_internal.h`.

A shallow embedding of the clipping helpers, the fixed-point YUV→RGB transform
and the pixel packing strategies, followed by the properties proved about them.

Conventions of the embedding:

* `INT32` / `INT64` values are `Int`; a conversion to `INT32` is the explicit
  two's-complement wrap `toINT32`.  The literals `256L`, `403L`, … have type
  `long`, so on an LP64 target the products are formed in 64 bits (no overflow
  for 32-bit operands) and only the initialisation of the `INT32` local wraps.
* `BYTE` values are `Nat`; a conversion to `BYTE` is `toBYTE` (reduction mod 256).
* `x >> 8L` on a signed operand is the arithmetic shift `Int.shiftRight`.
* Memory is a total map from byte addresses to bytes; a `BYTE*` is an address.
-/

namespace PrimInternal

/-! ## Machine integers -/

/-- Conversion of an integer value to `INT32` (two's-complement wrap). -/
def toINT32 (x : Int) : Int := (x + 2147483648) % 4294967296 - 2147483648

/-- Conversion of an integer value to `BYTE`, the cast `(BYTE)X`. -/
def toBYTE (x : Int) : Nat := (x % 256).toNat

/-! ## Clipping helpers -/

/-- `static INLINE BYTE CLIP(INT64 X)`. -/
def CLIP (X : Int) : Nat :=
  if X > 255 then 255
  else if X < 0 then 0
  else toBYTE X

/-- `static INLINE BYTE CONDITIONAL_CLIP(INT32 in, BYTE original)`. -/
def CONDITIONAL_CLIP (inp : Int) (original : Nat) : Nat :=
  let out := CLIP inp
  let diff : Nat :=
    if out > original then toBYTE ((out : Int) - (original : Int))
    else toBYTE ((original : Int) - (out : Int))
  if diff < 30 then original else out

/-! ## YUV → RGB -/

/-- `static INLINE INT32 C(INT32 Y)`: `return (Y)-0L;`. -/
def C (Y : Int) : Int := toINT32 (Y - 0)

/-- `static INLINE INT32 D(INT32 U)`: `return (U)-128L;`. -/
def D (U : Int) : Int := toINT32 (U - 128)

/-- `static INLINE INT32 E(INT32 V)`: `return (V)-128L;`. -/
def E (V : Int) : Int := toINT32 (V - 128)

/-- `static INLINE BYTE YUV2R(INT32 Y, INT32 U, INT32 V)`. -/
def YUV2R (Y U V : Int) : Nat :=
  let r : Int := toINT32 (256 * C Y + 0 * D U + 403 * E V)
  let r8 : Int := toINT32 (r >>> (8 : Nat))
  CLIP r8

/-- `static INLINE BYTE YUV2G(INT32 Y, INT32 U, INT32 V)`. -/
def YUV2G (Y U V : Int) : Nat :=
  let g : Int := toINT32 (256 * C Y - 48 * D U - 120 * E V)
  let g8 : Int := toINT32 (g >>> (8 : Nat))
  CLIP g8

/-- `static INLINE BYTE YUV2B(INT32 Y, INT32 U, INT32 V)`. -/
def YUV2B (Y U V : Int) : Nat :=
  let b : Int := toINT32 (256 * C Y + 475 * D U + 0 * E V)
  let b8 : Int := toINT32 (b >>> (8 : Nat))
  CLIP b8

/-- The saturation `clip_u8` as the specification words it: the value is
saturated to the interval [0,255]. -/
def clip_u8 (x : Int) : Int := min 255 (max 0 x)

/-! ## Memory and pixel packing strategies -/

/-- Byte-addressed memory: the contents of every address a `BYTE*` can hold. -/
abbrev Mem := Nat → Nat

/-- The store `*p = v` of one byte. -/
def store (m : Mem) (p : Nat) (v : Nat) : Mem := fun a => if a = p then v else m a

/-- A memory whose every byte is `0xAA`. -/
def memAA : Mem := fun _ => 0xAA

/-- `typedef BYTE* (*fkt_writePixel)(BYTE*, DWORD, UINT32, BYTE, BYTE, BYTE, BYTE);`
with the memory threaded through: the arguments are the memory, `dst`,
`formatSize`, `format`, `R`, `G`, `B`, `A`; the result is the memory after the
call and the returned cursor. -/
abbrev fkt_writePixel := Mem → Nat → Nat → Nat → Nat → Nat → Nat → Nat → Mem × Nat

/-- `writePixelBGRA`: `*dst++ = B; *dst++ = G; *dst++ = R; *dst++ = A; return dst;`. -/
def writePixelBGRA : fkt_writePixel := fun m dst _formatSize _format R G B A =>
  let m := store m dst B
  let dst := dst + 1
  let m := store m dst G
  let dst := dst + 1
  let m := store m dst R
  let dst := dst + 1
  let m := store m dst A
  let dst := dst + 1
  (m, dst)

/-- `writePixelBGRX`: `*dst++ = B; *dst++ = G; *dst++ = R; dst++; return dst;`. -/
def writePixelBGRX : fkt_writePixel := fun m dst _formatSize _format R G B _A =>
  let m := store m dst B
  let dst := dst + 1
  let m := store m dst G
  let dst := dst + 1
  let m := store m dst R
  let dst := dst + 1
  let dst := dst + 1
  (m, dst)

/-- `writePixelRGBA`: `*dst++ = R; *dst++ = G; *dst++ = B; *dst++ = A; return dst;`. -/
def writePixelRGBA : fkt_writePixel := fun m dst _formatSize _format R G B A =>
  let m := store m dst R
  let dst := dst + 1
  let m := store m dst G
  let dst := dst + 1
  let m := store m dst B
  let dst := dst + 1
  let m := store m dst A
  let dst := dst + 1
  (m, dst)

/-- `writePixelRGBX`: `*dst++ = R; *dst++ = G; *dst++ = B; dst++; return dst;`. -/
def writePixelRGBX : fkt_writePixel := fun m dst _formatSize _format R G B _A =>
  let m := store m dst R
  let dst := dst + 1
  let m := store m dst G
  let dst := dst + 1
  let m := store m dst B
  let dst := dst + 1
  let dst := dst + 1
  (m, dst)

/-- `writePixelABGR`: `*dst++ = A; *dst++ = B; *dst++ = G; *dst++ = R; return dst;`. -/
def writePixelABGR : fkt_writePixel := fun m dst _formatSize _format R G B A =>
  let m := store m dst A
  let dst := dst + 1
  let m := store m dst B
  let dst := dst + 1
  let m := store m dst G
  let dst := dst + 1
  let m := store m dst R
  let dst := dst + 1
  (m, dst)

/-- `writePixelXBGR`: `dst++; *dst++ = B; *dst++ = G; *dst++ = R; return dst;`. -/
def writePixelXBGR : fkt_writePixel := fun m dst _formatSize _format R G B _A =>
  let dst := dst + 1
  let m := store m dst B
  let dst := dst + 1
  let m := store m dst G
  let dst := dst + 1
  let m := store m dst R
  let dst := dst + 1
  (m, dst)

/-- `writePixelARGB`: `*dst++ = A; *dst++ = R; *dst++ = G; *dst++ = B; return dst;`. -/
def writePixelARGB : fkt_writePixel := fun m dst _formatSize _format R G B A =>
  let m := store m dst A
  let dst := dst + 1
  let m := store m dst R
  let dst := dst + 1
  let m := store m dst G
  let dst := dst + 1
  let m := store m dst B
  let dst := dst + 1
  (m, dst)

/-- `writePixelXRGB`: `dst++; *dst++ = R; *dst++ = G; *dst++ = B; return dst;`. -/
def writePixelXRGB : fkt_writePixel := fun m dst _formatSize _format R G B _A =>
  let dst := dst + 1
  let m := store m dst R
  let dst := dst + 1
  let m := store m dst G
  let dst := dst + 1
  let m := store m dst B
  let dst := dst + 1
  (m, dst)

/-- What `prim_internal.h` uses from `freerdp/codec/color.h`, which is not part
of the sources at hand: the eight `PIXEL_FORMAT_*32` identifiers named by the
`switch` of `getPixelWriteFunction`, and the colour encoder and the two colour
writers called by the generic strategies.  They are parameters of the
embedding; the writers act on the memory at `dst` and their `BOOL` result is
discarded by the callers. -/
structure ColorApi where
  PIXEL_FORMAT_ARGB32 : Nat
  PIXEL_FORMAT_XRGB32 : Nat
  PIXEL_FORMAT_ABGR32 : Nat
  PIXEL_FORMAT_XBGR32 : Nat
  PIXEL_FORMAT_RGBA32 : Nat
  PIXEL_FORMAT_RGBX32 : Nat
  PIXEL_FORMAT_BGRA32 : Nat
  PIXEL_FORMAT_BGRX32 : Nat
  FreeRDPGetColor : Nat → Nat → Nat → Nat → Nat → Nat
  FreeRDPWriteColor : Mem → Nat → Nat → Nat → Mem
  FreeRDPWriteColorIgnoreAlpha : Mem → Nat → Nat → Nat → Mem

/-- The eight identifiers that label the cases of the `switch`, in source order. -/
def ColorApi.enumerated (api : ColorApi) : List Nat :=
  [api.PIXEL_FORMAT_ARGB32, api.PIXEL_FORMAT_XRGB32,
   api.PIXEL_FORMAT_ABGR32, api.PIXEL_FORMAT_XBGR32,
   api.PIXEL_FORMAT_RGBA32, api.PIXEL_FORMAT_RGBX32,
   api.PIXEL_FORMAT_BGRA32, api.PIXEL_FORMAT_BGRX32]

/-- The case labels of a `switch` are pairwise different constants. -/
def ColorApi.Distinct (api : ColorApi) : Prop := api.enumerated.Nodup

instance (api : ColorApi) : Decidable api.Distinct :=
  inferInstanceAs (Decidable api.enumerated.Nodup)

/-- `writePixelGenericAlpha`: encode the colour, write it with
`FreeRDPWriteColor`, `return dst + formatSize;`. -/
def writePixelGenericAlpha (api : ColorApi) : fkt_writePixel :=
  fun m dst formatSize format R G B A =>
    let color := api.FreeRDPGetColor format R G B A
    let m := api.FreeRDPWriteColor m dst format color
    (m, dst + formatSize)

/-- `writePixelGeneric`: encode the colour, write it with
`FreeRDPWriteColorIgnoreAlpha`, `return dst + formatSize;`. -/
def writePixelGeneric (api : ColorApi) : fkt_writePixel :=
  fun m dst formatSize format R G B A =>
    let color := api.FreeRDPGetColor format R G B A
    let m := api.FreeRDPWriteColorIgnoreAlpha m dst format color
    (m, dst + formatSize)

/-- `static INLINE fkt_writePixel getPixelWriteFunction(DWORD format, BOOL useAlpha)`:
the `switch (format)` with its four two-label cases and the `default`. -/
def getPixelWriteFunction (api : ColorApi) (format : Nat) (useAlpha : Bool) : fkt_writePixel :=
  if format = api.PIXEL_FORMAT_ARGB32 ∨ format = api.PIXEL_FORMAT_XRGB32 then
    if useAlpha then writePixelARGB else writePixelXRGB
  else if format = api.PIXEL_FORMAT_ABGR32 ∨ format = api.PIXEL_FORMAT_XBGR32 then
    if useAlpha then writePixelABGR else writePixelXBGR
  else if format = api.PIXEL_FORMAT_RGBA32 ∨ format = api.PIXEL_FORMAT_RGBX32 then
    if useAlpha then writePixelRGBA else writePixelRGBX
  else if format = api.PIXEL_FORMAT_BGRA32 ∨ format = api.PIXEL_FORMAT_BGRX32 then
    if useAlpha then writePixelBGRA else writePixelBGRX
  else
    if useAlpha then writePixelGenericAlpha api else writePixelGeneric api

/-- A concrete instance of the parameters, used to evaluate the embedding:
identifiers laid out as `bpp << 24 | type << 16 | a << 12 | r << 8 | g << 4 | b`
(eight different values), a colour packed as `A R G B` from the high byte down,
and writers that store the bytes-per-pixel low bytes of the colour, highest
first. -/
def sampleApi : ColorApi where
  PIXEL_FORMAT_ARGB32 := 0x20018888
  PIXEL_FORMAT_XRGB32 := 0x20010888
  PIXEL_FORMAT_ABGR32 := 0x20028888
  PIXEL_FORMAT_XBGR32 := 0x20020888
  PIXEL_FORMAT_RGBA32 := 0x20038888
  PIXEL_FORMAT_RGBX32 := 0x20030888
  PIXEL_FORMAT_BGRA32 := 0x20048888
  PIXEL_FORMAT_BGRX32 := 0x20040888
  FreeRDPGetColor := fun _format R G B A => A * 16777216 + R * 65536 + G * 256 + B
  FreeRDPWriteColor := fun m dst format color =>
    let n := format / 16777216 / 8
    fun a => if dst ≤ a ∧ a < dst + n then color / 256 ^ (dst + n - 1 - a) % 256 else m a
  FreeRDPWriteColorIgnoreAlpha := fun m dst format color =>
    let n := format / 16777216 / 8
    fun a => if dst ≤ a ∧ a < dst + n then color / 256 ^ (dst + n - 1 - a) % 256 else m a

/-- The identifier of a 24-bit format in the layout of `sampleApi`; it is not
one of the eight enumerated 32-bit identifiers. -/
def sampleRGB24 : Nat := 0x18010888

end PrimInternal

/-! X11 keyboard handling of `client/X11/xf_keyboard.c`.

Conventions of the embedding:

* The context `xfContext` is passed explicitly; a function that changes it
  returns the new context.  The calls made on `xfc->common.context.input` are
  recorded, in order, in the field `inputCalls`.
* `WINPR_ASSERT` (and `WINPR_ASSERTING_INT_CAST`) aborts when its condition
  fails: a function containing one returns an `Option`, `none` being the abort.
* `KeyboardState` is the list of its entries, `ARRAYSIZE(xfc->KeyboardState)` its
  length.  A value of the X11 type `KeyCode` (`unsigned char`) is reduced mod 256.
* A C string is the list of its characters.  Log output is not modelled.
-/

namespace XfKeyboard

/-- A C string (`char*`): the characters before the terminating NUL. -/
abbrev CStr := List Char

/-- One call on the input interface `rdpInput`. -/
inductive InputCall where
  | keyboard_event_ex (down : Bool) (isRepeat : Bool) (rdp_scancode : Nat)
  | keyboard_pause_event
  | unicode_keyboard_event (flags : Nat) (code : Nat)
  | synchronize_event (flags : Nat)
  deriving DecidableEq

/-- `typedef struct { BOOL Shift; ... BOOL RightSuper; } XF_MODIFIER_KEYS;`. -/
structure XF_MODIFIER_KEYS where
  Shift : Bool
  LeftShift : Bool
  RightShift : Bool
  Alt : Bool
  LeftAlt : Bool
  RightAlt : Bool
  Ctrl : Bool
  LeftCtrl : Bool
  RightCtrl : Bool
  Super : Bool
  LeftSuper : Bool
  RightSuper : Bool
  deriving DecidableEq

/-- The fields of an `XKeyEvent` that the code or the X11 lookups read. -/
structure XKeyEvent where
  keycode : Nat
  state : Nat
  deriving DecidableEq

/-- The `XModifierKeymap` of X11: `max_keypermod` and the `8 * max_keypermod`
key codes of `modifiermap`. -/
structure XModifierKeymap where
  max_keypermod : Nat
  modifiermap : List Nat
  deriving DecidableEq

/-- The fields of `xfContext` that `xf_keyboard.c` reads or writes: `window` is
the handle of `xfc->window` when that pointer is not NULL, `UnicodeInput` the
setting `FreeRDP_UnicodeInput`. -/
structure xfContext where
  KeyboardState : List Bool
  actionScriptExists : Bool
  keyCombinations : List CStr
  ungrabKeyboardWithRightCtrl : Bool
  wasRightCtrlAlreadyPressed : Bool
  modifierMap : Option XModifierKeymap
  remote_app : Bool
  window : Option Nat
  UnicodeInput : Bool
  inputCalls : List InputCall
  deriving DecidableEq

/-- `typedef BOOL (*fn_action_script_run)(...)`, reduced to what the callback of
this file uses: the line `buffer`, its `size` and the `int` behind `user`; the
result is the returned `BOOL` and the new value of that `int`. -/
abbrev fn_action_script_run := CStr → Nat → Int → Bool × Int

/-- What `xf_keyboard.c` uses from X11, WinPR, libfreerdp and the rest of the
client, none of which is part of the sources at hand: the key symbols, scan
codes and flag constants, the X server lookups, and the helpers
`winpr_str_append` (`what`, `buffer`, `size`, `separator` to the new buffer),
`winpr_PathFileExists`, `popen` followed by `pclose` (`none` when `popen`
fails) and `run_action_script` (the command, the callback and the initial
`int` behind `user` to the returned `BOOL` and the final `int`; it is taken to
leave the context fields modelled here alone).  `XwcLookupString` gives the
returned count and the first `WCHAR` obtained from the looked-up text.  They
are parameters of the embedding. -/
structure KbdApi where
  XK_Shift_L : Nat
  XK_Shift_R : Nat
  XK_Alt_L : Nat
  XK_Alt_R : Nat
  XK_Control_L : Nat
  XK_Control_R : Nat
  XK_Super_L : Nat
  XK_Super_R : Nat
  XK_Scroll_Lock : Nat
  XK_Num_Lock : Nat
  XK_Caps_Lock : Nat
  XK_Kana_Lock : Nat
  NoSymbol : Nat
  RDP_SCANCODE_UNKNOWN : Nat
  RDP_SCANCODE_TAB : Nat
  RDP_SCANCODE_LWIN : Nat
  RDP_SCANCODE_PAUSE : Nat
  RDP_SCANCODE_RETURN : Nat
  RDP_SCANCODE_CAPSLOCK : Nat
  KBD_SYNC_SCROLL_LOCK : Nat
  KBD_SYNC_NUM_LOCK : Nat
  KBD_SYNC_CAPS_LOCK : Nat
  KBD_SYNC_KANA_LOCK : Nat
  KBD_FLAGS_RELEASE : Nat
  XKeysymToKeycode : Nat → Nat
  XKeysymToString : Nat → Option CStr
  XQueryPointer : Nat → Nat
  DefaultRootWindow : Nat
  XwcLookupString : XKeyEvent → Int × Nat
  freerdp_keyboard_get_rdp_scancode_from_x11_keycode : Nat → Nat
  winpr_str_append : CStr → CStr → Nat → CStr → CStr
  winpr_PathFileExists : CStr → Bool
  popen_pclose : CStr → Option Int
  run_action_script : CStr → fn_action_script_run → Int → Bool × Int

/-- The call `freerdp_input_send_...(xfc->common.context.input, ...)`, recorded. -/
def send (xfc : xfContext) (call : InputCall) : xfContext :=
  { xfc with inputCalls := xfc.inputCalls ++ [call] }

/-- `_stricmp`: 0 when the strings are equal up to the case of their letters. -/
def _stricmp (a b : CStr) : Int :=
  if a.map Char.toLower = b.map Char.toLower then 0
  else if a.map Char.toLower < b.map Char.toLower then -1 else 1

/-- `static BOOL xf_keyboard_key_pressed(xfContext* xfc, KeySym keysym)`. -/
def xf_keyboard_key_pressed (api : KbdApi) (xfc : xfContext) (keysym : Nat) : Option Bool :=
  let keycode := api.XKeysymToKeycode keysym % 256
  if keycode < xfc.KeyboardState.length then
    some (xfc.KeyboardState.getD keycode false)
  else none

/-- `static int xf_keyboard_read_keyboard_state(xfContext* xfc)`. -/
def xf_keyboard_read_keyboard_state (api : KbdApi) (xfc : xfContext) : Option Nat :=
  let state : Nat :=
    match xfc.remote_app, xfc.window with
    | false, some handle => api.XQueryPointer handle % 4294967296
    | _, _ => api.XQueryPointer api.DefaultRootWindow % 4294967296
  if state < 2147483648 then some state else none

/-- `static int xf_keyboard_get_keymask(xfContext* xfc, KeySym keysym)`. -/
def xf_keyboard_get_keymask (api : KbdApi) (xfc : xfContext) (keysym : Nat) : Option Nat :=
  let keycode := api.XKeysymToKeycode keysym % 256
  if keycode = api.NoSymbol then some 0
  else
    match xfc.modifierMap with
    | none => none
    | some map =>
      some ((List.range 8).foldl (fun keysymMask modifierpos =>
        let offset := map.max_keypermod * modifierpos
        (List.range map.max_keypermod).foldl (fun keysymMask key =>
          if map.modifiermap.getD (offset + key) 0 = keycode then
            keysymMask ||| (1 <<< modifierpos)
          else keysymMask) keysymMask) 0)

/-- `static BOOL xf_keyboard_get_key_state(xfContext* xfc, int state, KeySym keysym)`. -/
def xf_keyboard_get_key_state (api : KbdApi) (xfc : xfContext) (state : Nat) (keysym : Nat) :
    Option Bool :=
  match xf_keyboard_get_keymask api xfc keysym with
  | none => none
  | some keysymMask =>
    if keysymMask = 0 then some false
    else some (if state &&& keysymMask ≠ 0 then true else false)

/-- `UINT32 xf_keyboard_get_toggle_keys_state(xfContext* xfc)`. -/
def xf_keyboard_get_toggle_keys_state (api : KbdApi) (xfc : xfContext) : Option Nat := do
  let toggleKeysState := 0
  let state ← xf_keyboard_read_keyboard_state api xfc
  let scroll ← xf_keyboard_get_key_state api xfc state api.XK_Scroll_Lock
  let toggleKeysState :=
    if scroll then toggleKeysState ||| api.KBD_SYNC_SCROLL_LOCK else toggleKeysState
  let num ← xf_keyboard_get_key_state api xfc state api.XK_Num_Lock
  let toggleKeysState :=
    if num then toggleKeysState ||| api.KBD_SYNC_NUM_LOCK else toggleKeysState
  let caps ← xf_keyboard_get_key_state api xfc state api.XK_Caps_Lock
  let toggleKeysState :=
    if caps then toggleKeysState ||| api.KBD_SYNC_CAPS_LOCK else toggleKeysState
  let kana ← xf_keyboard_get_key_state api xfc state api.XK_Kana_Lock
  let toggleKeysState :=
    if kana then toggleKeysState ||| api.KBD_SYNC_KANA_LOCK else toggleKeysState
  pure toggleKeysState

/-- `static BOOL xf_sync_kbd_state(xfContext* xfc)`; no caller uses the result. -/
def xf_sync_kbd_state (api : KbdApi) (xfc : xfContext) : Option xfContext := do
  let syncFlags ← xf_keyboard_get_toggle_keys_state api xfc
  pure (send xfc (.synchronize_event syncFlags))

/-- `static BOOL action_script_run(...)`, the callback given to
`run_action_script`: `"key-local"` sets the status to 0, the path of an existing
file is executed and its exit status stored, anything else fails. -/
def action_script_run (api : KbdApi) : fn_action_script_run := fun buffer size status =>
  if size = 0 then (false, status)
  else if buffer = "key-local".toList then (true, 0)
  else if api.winpr_PathFileExists buffer then
    match api.popen_pclose buffer with
    | none => (false, status)
    | some closed => if closed < 0 then (false, closed) else (true, closed)
  else (false, status)

/-- `static int xf_keyboard_execute_action_script(xfContext* xfc, XF_MODIFIER_KEYS* mod,
KeySym keysym)`. -/
def xf_keyboard_execute_action_script (api : KbdApi) (xfc : xfContext) (mod : XF_MODIFIER_KEYS)
    (keysym : Nat) : Int :=
  let status : Int := 1
  if !xfc.actionScriptExists then 1
  else if keysym = api.XK_Shift_L ∨ keysym = api.XK_Shift_R ∨ keysym = api.XK_Alt_L ∨
      keysym = api.XK_Alt_R ∨ keysym = api.XK_Control_L ∨ keysym = api.XK_Control_R then 1
  else
    match api.XKeysymToString keysym with
    | none => 1
    | some keyStr =>
      let combination : CStr := []
      let combination :=
        if mod.Shift then api.winpr_str_append "Shift".toList combination 1024 "+".toList
        else combination
      let combination :=
        if mod.Ctrl then api.winpr_str_append "Ctrl".toList combination 1024 "+".toList
        else combination
      let combination :=
        if mod.Alt then api.winpr_str_append "Alt".toList combination 1024 "+".toList
        else combination
      let combination :=
        if mod.Super then api.winpr_str_append "Super".toList combination 1024 "+".toList
        else combination
      let combination := api.winpr_str_append keyStr combination 1024 "+".toList
      let combination := combination.map Char.toLower
      let found := xfc.keyCombinations.any (fun keyCombination =>
        _stricmp keyCombination combination = 0)
      if !found then 1
      else
        let command := ("key ".toList ++ combination).take 2047
        let r := api.run_action_script command (action_script_run api) status
        if !r.1 then -1 else r.2

/-- `static int xk_keyboard_get_modifier_keys(xfContext* xfc, XF_MODIFIER_KEYS* mod)`:
the modifier keys as filled in by the function. -/
def xk_keyboard_get_modifier_keys (api : KbdApi) (xfc : xfContext) : Option XF_MODIFIER_KEYS := do
  let LeftShift ← xf_keyboard_key_pressed api xfc api.XK_Shift_L
  let RightShift ← xf_keyboard_key_pressed api xfc api.XK_Shift_R
  let LeftAlt ← xf_keyboard_key_pressed api xfc api.XK_Alt_L
  let RightAlt ← xf_keyboard_key_pressed api xfc api.XK_Alt_R
  let LeftCtrl ← xf_keyboard_key_pressed api xfc api.XK_Control_L
  let RightCtrl ← xf_keyboard_key_pressed api xfc api.XK_Control_R
  let LeftSuper ← xf_keyboard_key_pressed api xfc api.XK_Super_L
  let RightSuper ← xf_keyboard_key_pressed api xfc api.XK_Super_R
  pure { Shift := LeftShift || RightShift, LeftShift := LeftShift, RightShift := RightShift,
         Alt := LeftAlt || RightAlt, LeftAlt := LeftAlt, RightAlt := RightAlt,
         Ctrl := LeftCtrl || RightCtrl, LeftCtrl := LeftCtrl, RightCtrl := RightCtrl,
         Super := LeftSuper || RightSuper, LeftSuper := LeftSuper, RightSuper := RightSuper }

/-- The update of the two Right-Ctrl flags at the head of
`xf_keyboard_handle_special_keys` (the `if (keysym == XK_Control_R) ... else ...`). -/
def rightCtrlFlags (api : KbdApi) (xfc : xfContext) (mod : XF_MODIFIER_KEYS) (keysym : Nat) :
    xfContext :=
  if keysym = api.XK_Control_R then
    if mod.RightCtrl && !xfc.wasRightCtrlAlreadyPressed then
      { xfc with ungrabKeyboardWithRightCtrl := true, wasRightCtrlAlreadyPressed := true }
    else xfc
  else
    if xfc.ungrabKeyboardWithRightCtrl then
      { xfc with ungrabKeyboardWithRightCtrl := false }
    else xfc

/-- `BOOL xf_keyboard_handle_special_keys(xfContext* xfc, KeySym keysym)`; the
gesture simulation under `#if 0` is not compiled. -/
def xf_keyboard_handle_special_keys (api : KbdApi) (xfc : xfContext) (keysym : Nat) :
    Option (xfContext × Bool) := do
  let mod ← xk_keyboard_get_modifier_keys api xfc
  let xfc := rightCtrlFlags api xfc mod keysym
  let rc := xf_keyboard_execute_action_script api xfc mod keysym
  if rc < 0 then pure (xfc, false)
  else if rc = 0 then pure (xfc, true)
  else pure (xfc, false)

/-- `void xf_keyboard_handle_special_keys_release(xfContext* xfc, KeySym keysym)`. -/
def xf_keyboard_handle_special_keys_release (api : KbdApi) (xfc : xfContext) (keysym : Nat) :
    Option xfContext :=
  if keysym ≠ api.XK_Control_R then some xfc
  else
    let xfc := { xfc with wasRightCtrlAlreadyPressed := false }
    if !xfc.ungrabKeyboardWithRightCtrl then some xfc
    else do
      let _mod ← xk_keyboard_get_modifier_keys api xfc
      pure { xfc with ungrabKeyboardWithRightCtrl := false }

/-- The part of `xf_keyboard_send_key` that sends the key itself, for a key that
is not Pause without Ctrl: the `if (freerdp_settings_get_bool(..., FreeRDP_UnicodeInput))
... else if (rdp_scancode == RDP_SCANCODE_UNKNOWN) ... else ...` statement. -/
def send_key_event (api : KbdApi) (xfc : xfContext) (down isRepeat : Bool)
    (event : XKeyEvent) (rdp_scancode : Nat) : xfContext :=
  if xfc.UnicodeInput then
    let looked : Int × Nat :=
      if rdp_scancode = api.RDP_SCANCODE_RETURN then (-1, 0)
      else api.XwcLookupString event
    if looked.1 < 1 then
      if rdp_scancode = api.RDP_SCANCODE_UNKNOWN then xfc
      else send xfc (.keyboard_event_ex down isRepeat rdp_scancode)
    else
      send xfc (.unicode_keyboard_event (if down then 0 else api.KBD_FLAGS_RELEASE)
        looked.2)
  else if rdp_scancode = api.RDP_SCANCODE_UNKNOWN then xfc
  else send xfc (.keyboard_event_ex down isRepeat rdp_scancode)

/-- The condition of the first `if` of `xf_keyboard_send_key`,
`rdp_scancode == RDP_SCANCODE_PAUSE && !xf_keyboard_key_pressed(xfc, XK_Control_L) &&
!xf_keyboard_key_pressed(xfc, XK_Control_R)`, evaluated left to right with the
short circuit of `&&`. -/
def pause_without_ctrl (api : KbdApi) (xfc : xfContext) (rdp_scancode : Nat) : Option Bool :=
  if rdp_scancode = api.RDP_SCANCODE_PAUSE then do
    let left ← xf_keyboard_key_pressed api xfc api.XK_Control_L
    if left then pure false
    else do
      let right ← xf_keyboard_key_pressed api xfc api.XK_Control_R
      pure (!right)
  else pure false

/-- `void xf_keyboard_send_key(xfContext* xfc, BOOL down, BOOL repeat, const XKeyEvent* event)`. -/
def xf_keyboard_send_key (api : KbdApi) (xfc : xfContext) (down isRepeat : Bool)
    (event : XKeyEvent) : Option xfContext := do
  let rdp_scancode := api.freerdp_keyboard_get_rdp_scancode_from_x11_keycode event.keycode
  let pauseWithoutCtrl ← pause_without_ctrl api xfc rdp_scancode
  if pauseWithoutCtrl then
    if down then pure (send xfc .keyboard_pause_event) else pure xfc
  else
    let xfc := send_key_event api xfc down isRepeat event rdp_scancode
    if rdp_scancode = api.RDP_SCANCODE_CAPSLOCK ∧ down = false then
      xf_sync_kbd_state api xfc
    else pure xfc

/-- `void xf_keyboard_key_press(xfContext* xfc, const XKeyEvent* event, KeySym keysym)`. -/
def xf_keyboard_key_press (api : KbdApi) (xfc : xfContext) (event : XKeyEvent) (keysym : Nat) :
    Option xfContext :=
  if event.keycode < xfc.KeyboardState.length then do
    let last := xfc.KeyboardState.getD event.keycode false
    let xfc := { xfc with KeyboardState := xfc.KeyboardState.set event.keycode true }
    let handled ← xf_keyboard_handle_special_keys api xfc keysym
    if handled.2 then pure handled.1
    else xf_keyboard_send_key api handled.1 true last event
  else none

/-- `void xf_keyboard_key_release(xfContext* xfc, const XKeyEvent* event, KeySym keysym)`. -/
def xf_keyboard_key_release (api : KbdApi) (xfc : xfContext) (event : XKeyEvent) (keysym : Nat) :
    Option xfContext :=
  if event.keycode < xfc.KeyboardState.length then do
    let last := xfc.KeyboardState.getD event.keycode false
    let xfc := { xfc with KeyboardState := xfc.KeyboardState.set event.keycode false }
    let xfc ← xf_keyboard_handle_special_keys_release api xfc keysym
    xf_keyboard_send_key api xfc false last event
  else none

/-- The `for` loop of `xf_keyboard_release_all_keypress`, entered at `keycode` with
`todo` iterations allowed; `ARRAYSIZE(xfc->KeyboardState)` of them reach the end
of the array from `keycode = 0`. -/
def release_all_loop (api : KbdApi) : Nat → Nat → xfContext → xfContext
  | 0, _, xfc => xfc
  | todo + 1, keycode, xfc =>
    if keycode < xfc.KeyboardState.length then
      let xfc :=
        if xfc.KeyboardState.getD keycode false then
          let rdp_scancode :=
            api.freerdp_keyboard_get_rdp_scancode_from_x11_keycode (keycode % 4294967296)
          let xfc :=
            if rdp_scancode = api.RDP_SCANCODE_LWIN then
              send xfc (.keyboard_event_ex false false api.RDP_SCANCODE_TAB)
            else xfc
          let xfc := send xfc (.keyboard_event_ex false false rdp_scancode)
          { xfc with KeyboardState := xfc.KeyboardState.set keycode false }
        else xfc
      release_all_loop api todo (keycode + 1) xfc
    else xfc

/-- `void xf_keyboard_release_all_keypress(xfContext* xfc)`. -/
def xf_keyboard_release_all_keypress (api : KbdApi) (xfc : xfContext) : Option xfContext :=
  let xfc := release_all_loop api xfc.KeyboardState.length 0 xfc
  xf_sync_kbd_state api xfc

/-- The key releases `xf_keyboard_release_all_keypress` is to send for one
`keycode`, given the `KeyboardState` at entry: nothing for a key that is up, the
release of its scan code for a key that is down, preceded by a release of
`RDP_SCANCODE_TAB` when that scan code is `RDP_SCANCODE_LWIN`. -/
def releasesOf (api : KbdApi) (state : List Bool) (keycode : Nat) : List InputCall :=
  if state.getD keycode false then
    (if api.freerdp_keyboard_get_rdp_scancode_from_x11_keycode (keycode % 4294967296)
        = api.RDP_SCANCODE_LWIN then
      [InputCall.keyboard_event_ex false false api.RDP_SCANCODE_TAB]
    else []) ++
    [InputCall.keyboard_event_ex false false
      (api.freerdp_keyboard_get_rdp_scancode_from_x11_keycode (keycode % 4294967296))]
  else []

/-- A concrete instance of the parameters, used to evaluate the embedding: the
key symbols of `X11/keysymdef.h`, scan codes as `code | 0x100` when extended, a
keyboard with a handful of keys, a script answering `key-local` to every
command, and `winpr_str_append` appending `what` after the separator when the
buffer is not empty and the result fits. -/
def sampleKbd : KbdApi where
  XK_Shift_L := 0xffe1
  XK_Shift_R := 0xffe2
  XK_Alt_L := 0xffe9
  XK_Alt_R := 0xffea
  XK_Control_L := 0xffe3
  XK_Control_R := 0xffe4
  XK_Super_L := 0xffeb
  XK_Super_R := 0xffec
  XK_Scroll_Lock := 0xff14
  XK_Num_Lock := 0xff7f
  XK_Caps_Lock := 0xffe5
  XK_Kana_Lock := 0xff2d
  NoSymbol := 0
  RDP_SCANCODE_UNKNOWN := 0
  RDP_SCANCODE_TAB := 0x0F
  RDP_SCANCODE_LWIN := 0x15B
  RDP_SCANCODE_PAUSE := 0x46
  RDP_SCANCODE_RETURN := 0x1C
  RDP_SCANCODE_CAPSLOCK := 0x3A
  KBD_SYNC_SCROLL_LOCK := 1
  KBD_SYNC_NUM_LOCK := 2
  KBD_SYNC_CAPS_LOCK := 4
  KBD_SYNC_KANA_LOCK := 8
  KBD_FLAGS_RELEASE := 0x8000
  XKeysymToKeycode := fun keysym =>
    if keysym = 0xffe1 then 50 else if keysym = 0xffe2 then 62
    else if keysym = 0xffe3 then 37 else if keysym = 0xffe4 then 105
    else if keysym = 0xffe9 then 64 else if keysym = 0xffea then 108
    else if keysym = 0xffeb then 133 else if keysym = 0xffec then 134
    else if keysym = 0xffe5 then 66 else if keysym = 0xff7f then 77
    else if keysym = 0xff14 then 78 else if keysym = 0x61 then 38
    else if keysym = 0xff09 then 23 else 0
  XKeysymToString := fun keysym =>
    if keysym = 0x61 then some "a".toList
    else if keysym = 0xff09 then some "Tab".toList else none
  XQueryPointer := fun _window => 0x12
  DefaultRootWindow := 1
  XwcLookupString := fun event => if event.keycode = 38 then (1, 0x61) else (0, 0)
  freerdp_keyboard_get_rdp_scancode_from_x11_keycode := fun keycode =>
    if keycode = 23 then 0x0F else if keycode = 133 then 0x15B
    else if keycode = 38 then 0x1E else if keycode = 37 then 0x1D
    else if keycode = 105 then 0x11D else if keycode = 66 then 0x3A
    else if keycode = 50 then 0x2A else 0
  winpr_str_append := fun what buffer size separator =>
    let sep := if buffer.length > 0 then separator else []
    if buffer.length + what.length + sep.length ≥ size then buffer
    else buffer ++ sep ++ what
  winpr_PathFileExists := fun _path => false
  popen_pclose := fun _command => none
  run_action_script := fun _command fkt status => fkt "key-local".toList 9 status

/-- A context with 256 keyboard entries, Left Shift (key code 50), the Tab key
(23) and the left Windows key (133) down, a modifier map with Caps Lock on
modifier 1 and Num Lock on modifier 4, and no action script. -/
def sampleCtx : xfContext where
  KeyboardState :=
    (((List.replicate 256 false).set 23 true).set 50 true).set 133 true
  actionScriptExists := false
  keyCombinations := []
  ungrabKeyboardWithRightCtrl := true
  wasRightCtrlAlreadyPressed := true
  modifierMap := some { max_keypermod := 2,
                        modifiermap := [50, 62, 66, 0, 37, 105, 64, 0, 77, 0, 0, 0, 133, 134, 0, 0] }
  remote_app := false
  window := some 7
  UnicodeInput := false
  inputCalls := []

/-- The sample context with an action script that handles `Ctrl+a`. -/
def sampleScriptCtx : xfContext :=
  { sampleCtx with
    KeyboardState := (List.replicate 256 false).set 37 true
    actionScriptExists := true
    keyCombinations := ["Ctrl+A".toList, "Shift+Tab".toList] }

end XfKeyboard

namespace PrimInternal

/-! ## Helper lemmas -/

theorem toINT32_of_range (x : Int) (h1 : -2147483648 ≤ x) (h2 : x < 2147483648) :
    toINT32 x = x := by
  unfold toINT32
  omega

theorem toBYTE_of_range (x : Int) (h1 : 0 ≤ x) (h2 : x ≤ 255) :
    (toBYTE x : Int) = x := by
  unfold toBYTE
  omega

theorem shiftRight8_eq_div (x : Int) : x >>> (8 : Nat) = x / 256 := by
  rw [Int.shiftRight_eq_div_pow]
  norm_num

theorem CLIP_eq_clip_u8 (X : Int) : (CLIP X : Int) = clip_u8 X := by
  unfold CLIP clip_u8
  split_ifs with h1 h2
  · omega
  · omega
  · rw [toBYTE_of_range X (by omega) (by omega)]
    omega

theorem CLIP_le (X : Int) : CLIP X ≤ 255 := by
  have h := CLIP_eq_clip_u8 X
  unfold clip_u8 at h
  omega

theorem YUV2R_eq (Y U V : Int) (hY : 0 ≤ Y ∧ Y ≤ 255) (hV : 0 ≤ V ∧ V ≤ 255) :
    YUV2R Y U V = CLIP ((256 * Y + 403 * (V - 128)) / 256) := by
  unfold YUV2R C D E
  simp only [shiftRight8_eq_div]
  rw [toINT32_of_range (Y - 0) (by omega) (by omega),
    toINT32_of_range (V - 128) (by omega) (by omega),
    toINT32_of_range (256 * (Y - 0) + 0 * toINT32 (U - 128) + 403 * (V - 128))
      (by omega) (by omega),
    toINT32_of_range _ (by omega) (by omega)]
  congr 2
  omega

theorem YUV2G_eq (Y U V : Int) (hY : 0 ≤ Y ∧ Y ≤ 255) (hU : 0 ≤ U ∧ U ≤ 255)
    (hV : 0 ≤ V ∧ V ≤ 255) :
    YUV2G Y U V = CLIP ((256 * Y - 48 * (U - 128) - 120 * (V - 128)) / 256) := by
  unfold YUV2G C D E
  simp only [shiftRight8_eq_div]
  rw [toINT32_of_range (Y - 0) (by omega) (by omega),
    toINT32_of_range (U - 128) (by omega) (by omega),
    toINT32_of_range (V - 128) (by omega) (by omega),
    toINT32_of_range (256 * (Y - 0) - 48 * (U - 128) - 120 * (V - 128))
      (by omega) (by omega),
    toINT32_of_range _ (by omega) (by omega)]
  congr 2
  omega

theorem YUV2B_eq (Y U V : Int) (hY : 0 ≤ Y ∧ Y ≤ 255) (hU : 0 ≤ U ∧ U ≤ 255) :
    YUV2B Y U V = CLIP ((256 * Y + 475 * (U - 128)) / 256) := by
  unfold YUV2B C D E
  simp only [shiftRight8_eq_div]
  rw [toINT32_of_range (Y - 0) (by omega) (by omega),
    toINT32_of_range (U - 128) (by omega) (by omega),
    toINT32_of_range (256 * (Y - 0) + 475 * (U - 128) + 0 * toINT32 (V - 128))
      (by omega) (by omega),
    toINT32_of_range _ (by omega) (by omega)]
  congr 2
  omega

theorem floor_div_256 (n : Int) : ⌊(n : ℚ) / 256⌋ = n / 256 := by
  have h := Rat.floor_intCast_div_natCast n 256
  simpa using h

theorem CONDITIONAL_CLIP_spec (inp : Int) (original : Nat) (h : original ≤ 255) :
    CONDITIONAL_CLIP inp original =
      if |(CLIP inp : Int) - (original : Int)| < 30 then original else CLIP inp := by
  have hc := CLIP_le inp
  unfold CONDITIONAL_CLIP
  simp only
  generalize CLIP inp = out at hc ⊢
  by_cases hgt : out > original
  · rw [if_pos hgt]
    have hb := toBYTE_of_range ((out : Int) - (original : Int)) (by omega) (by omega)
    have habs : |(out : Int) - (original : Int)| = (out : Int) - (original : Int) :=
      abs_of_nonneg (by omega)
    rw [habs]
    by_cases hd : toBYTE ((out : Int) - (original : Int)) < 30
    · rw [if_pos hd, if_pos (by omega)]
    · rw [if_neg hd, if_neg (by omega)]
  · rw [if_neg hgt]
    have hb := toBYTE_of_range ((original : Int) - (out : Int)) (by omega) (by omega)
    have habs : |(out : Int) - (original : Int)| = (original : Int) - (out : Int) := by
      rw [abs_sub_comm]
      exact abs_of_nonneg (by omega)
    rw [habs]
    by_cases hd : toBYTE ((original : Int) - (out : Int)) < 30
    · rw [if_pos hd, if_pos (by omega)]
    · rw [if_neg hd, if_neg (by omega)]

theorem distinct_ne (api : ColorApi) (hd : api.Distinct) :
    api.PIXEL_FORMAT_ABGR32 ≠ api.PIXEL_FORMAT_ARGB32 ∧
    api.PIXEL_FORMAT_ABGR32 ≠ api.PIXEL_FORMAT_XRGB32 ∧
    api.PIXEL_FORMAT_XBGR32 ≠ api.PIXEL_FORMAT_ARGB32 ∧
    api.PIXEL_FORMAT_XBGR32 ≠ api.PIXEL_FORMAT_XRGB32 ∧
    api.PIXEL_FORMAT_RGBA32 ≠ api.PIXEL_FORMAT_ARGB32 ∧
    api.PIXEL_FORMAT_RGBA32 ≠ api.PIXEL_FORMAT_XRGB32 ∧
    api.PIXEL_FORMAT_RGBA32 ≠ api.PIXEL_FORMAT_ABGR32 ∧
    api.PIXEL_FORMAT_RGBA32 ≠ api.PIXEL_FORMAT_XBGR32 ∧
    api.PIXEL_FORMAT_RGBX32 ≠ api.PIXEL_FORMAT_ARGB32 ∧
    api.PIXEL_FORMAT_RGBX32 ≠ api.PIXEL_FORMAT_XRGB32 ∧
    api.PIXEL_FORMAT_RGBX32 ≠ api.PIXEL_FORMAT_ABGR32 ∧
    api.PIXEL_FORMAT_RGBX32 ≠ api.PIXEL_FORMAT_XBGR32 ∧
    api.PIXEL_FORMAT_BGRA32 ≠ api.PIXEL_FORMAT_ARGB32 ∧
    api.PIXEL_FORMAT_BGRA32 ≠ api.PIXEL_FORMAT_XRGB32 ∧
    api.PIXEL_FORMAT_BGRA32 ≠ api.PIXEL_FORMAT_ABGR32 ∧
    api.PIXEL_FORMAT_BGRA32 ≠ api.PIXEL_FORMAT_XBGR32 ∧
    api.PIXEL_FORMAT_BGRA32 ≠ api.PIXEL_FORMAT_RGBA32 ∧
    api.PIXEL_FORMAT_BGRA32 ≠ api.PIXEL_FORMAT_RGBX32 ∧
    api.PIXEL_FORMAT_BGRX32 ≠ api.PIXEL_FORMAT_ARGB32 ∧
    api.PIXEL_FORMAT_BGRX32 ≠ api.PIXEL_FORMAT_XRGB32 ∧
    api.PIXEL_FORMAT_BGRX32 ≠ api.PIXEL_FORMAT_ABGR32 ∧
    api.PIXEL_FORMAT_BGRX32 ≠ api.PIXEL_FORMAT_XBGR32 ∧
    api.PIXEL_FORMAT_BGRX32 ≠ api.PIXEL_FORMAT_RGBA32 ∧
    api.PIXEL_FORMAT_BGRX32 ≠ api.PIXEL_FORMAT_RGBX32 := by
  unfold ColorApi.Distinct ColorApi.enumerated at hd
  simp only [List.nodup_cons, List.mem_cons, List.not_mem_nil, or_false, not_or,
    List.nodup_nil, and_true, not_false_eq_true] at hd
  obtain ⟨⟨-, h13, h14, h15, h16, h17, h18⟩, ⟨h23, h24, h25, h26, h27, h28⟩,
    ⟨-, h35, h36, h37, h38⟩, ⟨h45, h46, h47, h48⟩, ⟨-, h57, h58⟩, ⟨h67, h68⟩, -⟩ := hd
  exact ⟨Ne.symm h13, Ne.symm h23, Ne.symm h14, Ne.symm h24,
    Ne.symm h15, Ne.symm h25, Ne.symm h35, Ne.symm h45,
    Ne.symm h16, Ne.symm h26, Ne.symm h36, Ne.symm h46,
    Ne.symm h17, Ne.symm h27, Ne.symm h37, Ne.symm h47, Ne.symm h57, Ne.symm h67,
    Ne.symm h18, Ne.symm h28, Ne.symm h38, Ne.symm h48, Ne.symm h58, Ne.symm h68⟩

theorem select_ARGB32 (api : ColorApi) (useAlpha : Bool) :
    getPixelWriteFunction api api.PIXEL_FORMAT_ARGB32 useAlpha
      = if useAlpha then writePixelARGB else writePixelXRGB := by
  simp [getPixelWriteFunction]

theorem select_XRGB32 (api : ColorApi) (useAlpha : Bool) :
    getPixelWriteFunction api api.PIXEL_FORMAT_XRGB32 useAlpha
      = if useAlpha then writePixelARGB else writePixelXRGB := by
  simp [getPixelWriteFunction]

theorem select_ABGR32 (api : ColorApi) (hd : api.Distinct) (useAlpha : Bool) :
    getPixelWriteFunction api api.PIXEL_FORMAT_ABGR32 useAlpha
      = if useAlpha then writePixelABGR else writePixelXBGR := by
  obtain ⟨h1, h2, -⟩ := distinct_ne api hd
  simp [getPixelWriteFunction, h1, h2]

theorem select_XBGR32 (api : ColorApi) (hd : api.Distinct) (useAlpha : Bool) :
    getPixelWriteFunction api api.PIXEL_FORMAT_XBGR32 useAlpha
      = if useAlpha then writePixelABGR else writePixelXBGR := by
  obtain ⟨-, -, h1, h2, -⟩ := distinct_ne api hd
  simp [getPixelWriteFunction, h1, h2]

theorem select_RGBA32 (api : ColorApi) (hd : api.Distinct) (useAlpha : Bool) :
    getPixelWriteFunction api api.PIXEL_FORMAT_RGBA32 useAlpha
      = if useAlpha then writePixelRGBA else writePixelRGBX := by
  obtain ⟨-, -, -, -, h1, h2, h3, h4, -⟩ := distinct_ne api hd
  simp [getPixelWriteFunction, h1, h2, h3, h4]

theorem select_RGBX32 (api : ColorApi) (hd : api.Distinct) (useAlpha : Bool) :
    getPixelWriteFunction api api.PIXEL_FORMAT_RGBX32 useAlpha
      = if useAlpha then writePixelRGBA else writePixelRGBX := by
  obtain ⟨-, -, -, -, -, -, -, -, h1, h2, h3, h4, -⟩ := distinct_ne api hd
  simp [getPixelWriteFunction, h1, h2, h3, h4]

theorem select_BGRA32 (api : ColorApi) (hd : api.Distinct) (useAlpha : Bool) :
    getPixelWriteFunction api api.PIXEL_FORMAT_BGRA32 useAlpha
      = if useAlpha then writePixelBGRA else writePixelBGRX := by
  obtain ⟨-, -, -, -, -, -, -, -, -, -, -, -, h1, h2, h3, h4, h5, h6, -⟩ := distinct_ne api hd
  simp [getPixelWriteFunction, h1, h2, h3, h4, h5, h6]

theorem select_BGRX32 (api : ColorApi) (hd : api.Distinct) (useAlpha : Bool) :
    getPixelWriteFunction api api.PIXEL_FORMAT_BGRX32 useAlpha
      = if useAlpha then writePixelBGRA else writePixelBGRX := by
  obtain ⟨-, -, -, -, -, -, -, -, -, -, -, -, -, -, -, -, -, -, h1, h2, h3, h4, h5, h6⟩ :=
    distinct_ne api hd
  simp [getPixelWriteFunction, h1, h2, h3, h4, h5, h6]

theorem select_default (api : ColorApi) (format : Nat) (hn : format ∉ api.enumerated)
    (useAlpha : Bool) :
    getPixelWriteFunction api format useAlpha
      = if useAlpha then writePixelGenericAlpha api else writePixelGeneric api := by
  unfold ColorApi.enumerated at hn
  simp only [List.mem_cons, List.mem_singleton, not_or, List.not_mem_nil, not_false_eq_true,
    and_true] at hn
  obtain ⟨h1, h2, h3, h4, h5, h6, h7, h8⟩ := hn
  simp [getPixelWriteFunction, h1, h2, h3, h4, h5, h6, h7, h8]

/-! ## The colour transform and the clipping helpers -/

/-- C1: for Y, U, V in [0,255] the three channel functions compute the rows of
the fixed-point matrix: the sum is divided by 256 rounding towards minus infinity
(the arithmetic right shift by 8) and then saturated to [0,255]. -/
theorem YUV2RGB_matches_matrix (Y U V : Int) (hY : 0 ≤ Y ∧ Y ≤ 255) (hU : 0 ≤ U ∧ U ≤ 255)
    (hV : 0 ≤ V ∧ V ≤ 255) :
    (YUV2R Y U V : Int) = clip_u8 ⌊((256 * Y + 403 * (V - 128) : Int) : ℚ) / 256⌋ ∧
    (YUV2G Y U V : Int)
      = clip_u8 ⌊((256 * Y - 48 * (U - 128) - 120 * (V - 128) : Int) : ℚ) / 256⌋ ∧
    (YUV2B Y U V : Int) = clip_u8 ⌊((256 * Y + 475 * (U - 128) : Int) : ℚ) / 256⌋ := by
  rw [YUV2R_eq Y U V hY hV, YUV2G_eq Y U V hY hU hV, YUV2B_eq Y U V hY hU]
  refine ⟨?_, ?_, ?_⟩ <;> rw [floor_div_256, CLIP_eq_clip_u8]

/-- The matrix identity applied to Y=0, U=0, V=255, where it gives R=199, G=0, B=0. -/
theorem YUV2RGB_matches_matrix_witness :
    ((0 : Int) ≤ 0 ∧ (0 : Int) ≤ 255) ∧ ((0 : Int) ≤ 255 ∧ (255 : Int) ≤ 255) ∧
    ((YUV2R 0 0 255 : Int) = clip_u8 ⌊((256 * 0 + 403 * (255 - 128) : Int) : ℚ) / 256⌋ ∧
     (YUV2G 0 0 255 : Int)
       = clip_u8 ⌊((256 * 0 - 48 * (0 - 128) - 120 * (255 - 128) : Int) : ℚ) / 256⌋ ∧
     (YUV2B 0 0 255 : Int) = clip_u8 ⌊((256 * 0 + 475 * (0 - 128) : Int) : ℚ) / 256⌋) ∧
    (YUV2R 0 0 255 = 199 ∧ YUV2G 0 0 255 = 0 ∧ YUV2B 0 0 255 = 0) :=
  ⟨by decide, by decide,
    YUV2RGB_matches_matrix 0 0 255 (by decide) (by decide) (by decide), by decide⟩

/-- C2: `CLIP` is saturation to [0,255], that is 0 below 0, 255 above 255 and the
argument itself in between, so every channel computed by `YUV2R`, `YUV2G` and
`YUV2B` lies in [0,255] whatever the inputs; at the two extreme triples the
values of G and B before clipping are outside [0,255] and are saturated. -/
theorem CLIP_saturates_and_channels_in_range (X Y U V : Int) :
    (CLIP X : Int) = min 255 (max 0 X) ∧
    (CLIP X : Int) = (if X < 0 then 0 else if X > 255 then 255 else X) ∧
    (0 ≤ (YUV2R Y U V : Int) ∧ (YUV2R Y U V : Int) ≤ 255) ∧
    (0 ≤ (YUV2G Y U V : Int) ∧ (YUV2G Y U V : Int) ≤ 255) ∧
    (0 ≤ (YUV2B Y U V : Int) ∧ (YUV2B Y U V : Int) ≤ 255) ∧
    (toINT32 (toINT32 (256 * C 0 - 48 * D 0 - 120 * E 255) >>> (8 : Nat)) = -36 ∧
      YUV2G 0 0 255 = 0) ∧
    (toINT32 (toINT32 (256 * C 0 + 475 * D 0 + 0 * E 255) >>> (8 : Nat)) = -238 ∧
      YUV2B 0 0 255 = 0) ∧
    (toINT32 (toINT32 (256 * C 255 - 48 * D 255 - 120 * E 0) >>> (8 : Nat)) = 291 ∧
      YUV2G 255 255 0 = 255) ∧
    (toINT32 (toINT32 (256 * C 255 + 475 * D 255 + 0 * E 0) >>> (8 : Nat)) = 490 ∧
      YUV2B 255 255 0 = 255) := by
  have hX := CLIP_eq_clip_u8 X
  unfold clip_u8 at hX
  have hR : YUV2R Y U V ≤ 255 := CLIP_le _
  have hG : YUV2G Y U V ≤ 255 := CLIP_le _
  have hB : YUV2B Y U V ≤ 255 := CLIP_le _
  refine ⟨hX, ?_, ⟨by omega, by omega⟩, ⟨by omega, by omega⟩, ⟨by omega, by omega⟩,
    by decide, by decide, by decide, by decide⟩
  rw [hX]
  split_ifs <;> omega

/-- C3: `CONDITIONAL_CLIP` returns `original` when the absolute difference between
the clipped value and `original` is below 30 and the clipped value otherwise; so a
clipped value 29 above or 29 below `original` yields `original`, and one exactly 30
away yields the clipped value. -/
theorem CONDITIONAL_CLIP_threshold (inp : Int) (original : Nat) (h : original ≤ 255) :
    (CONDITIONAL_CLIP inp original =
      if |(CLIP inp : Int) - (original : Int)| < 30 then original else CLIP inp) ∧
    (CLIP inp = original + 29 → CONDITIONAL_CLIP inp original = original) ∧
    (CLIP inp + 29 = original → CONDITIONAL_CLIP inp original = original) ∧
    (CLIP inp = original + 30 → CONDITIONAL_CLIP inp original = CLIP inp) ∧
    (CLIP inp + 30 = original → CONDITIONAL_CLIP inp original = CLIP inp) := by
  have hs := CONDITIONAL_CLIP_spec inp original h
  refine ⟨hs, ?_, ?_, ?_, ?_⟩
  · intro he
    rw [hs, if_pos]
    rw [abs_lt]
    omega
  · intro he
    rw [hs, if_pos]
    rw [abs_lt]
    omega
  · intro he
    rw [hs, if_neg]
    rw [abs_lt]
    omega
  · intro he
    rw [hs, if_neg]
    rw [abs_lt]
    omega

/-- The threshold behaviour at `original = 100`: the clipped values 129 and 71 give
100 back, the clipped values 130 and 70 are returned themselves. -/
theorem CONDITIONAL_CLIP_threshold_witness :
    (100 ≤ 255) ∧
    CONDITIONAL_CLIP 129 100 = 100 ∧ CONDITIONAL_CLIP 71 100 = 100 ∧
    CONDITIONAL_CLIP 130 100 = 130 ∧ CONDITIONAL_CLIP 70 100 = 70 :=
  ⟨by decide,
    (CONDITIONAL_CLIP_threshold 129 100 (by decide)).2.1 (by decide),
    (CONDITIONAL_CLIP_threshold 71 100 (by decide)).2.2.1 (by decide),
    ((CONDITIONAL_CLIP_threshold 130 100 (by decide)).2.2.2.1 (by decide)).trans (by decide),
    ((CONDITIONAL_CLIP_threshold 70 100 (by decide)).2.2.2.2 (by decide)).trans (by decide)⟩

/-- C10: a computed value within 29 of `original` is replaced by `original`. -/
theorem CONDITIONAL_CLIP_within_29 (inp : Int) (original : Nat) (h : original ≤ 255)
    (hd : |inp - (original : Int)| ≤ 29) : CONDITIONAL_CLIP inp original = original := by
  rw [CONDITIONAL_CLIP_spec inp original h, if_pos]
  rw [abs_le] at hd
  rw [abs_lt, CLIP_eq_clip_u8]
  unfold clip_u8
  omega

/-- With `original = 100` the computed value 120 is within 29 and 100 is returned. -/
theorem CONDITIONAL_CLIP_within_29_witness :
    (100 ≤ 255) ∧ |(120 : Int) - ((100 : Nat) : Int)| ≤ 29 ∧ CONDITIONAL_CLIP 120 100 = 100 :=
  ⟨by decide, by decide, CONDITIONAL_CLIP_within_29 120 100 (by decide) (by decide)⟩

/-! ## Pixel packing strategies -/

/-- C4: each of the eight specialised strategies stores the channel values at the
byte offsets its layout names, whatever `formatSize` and `format` are. -/
theorem writePixel_layouts (m : Mem) (dst formatSize format R G B A : Nat) :
    ((writePixelARGB m dst formatSize format R G B A).1 dst = A ∧
     (writePixelARGB m dst formatSize format R G B A).1 (dst + 1) = R ∧
     (writePixelARGB m dst formatSize format R G B A).1 (dst + 2) = G ∧
     (writePixelARGB m dst formatSize format R G B A).1 (dst + 3) = B) ∧
    ((writePixelABGR m dst formatSize format R G B A).1 dst = A ∧
     (writePixelABGR m dst formatSize format R G B A).1 (dst + 1) = B ∧
     (writePixelABGR m dst formatSize format R G B A).1 (dst + 2) = G ∧
     (writePixelABGR m dst formatSize format R G B A).1 (dst + 3) = R) ∧
    ((writePixelRGBA m dst formatSize format R G B A).1 dst = R ∧
     (writePixelRGBA m dst formatSize format R G B A).1 (dst + 1) = G ∧
     (writePixelRGBA m dst formatSize format R G B A).1 (dst + 2) = B ∧
     (writePixelRGBA m dst formatSize format R G B A).1 (dst + 3) = A) ∧
    ((writePixelBGRA m dst formatSize format R G B A).1 dst = B ∧
     (writePixelBGRA m dst formatSize format R G B A).1 (dst + 1) = G ∧
     (writePixelBGRA m dst formatSize format R G B A).1 (dst + 2) = R ∧
     (writePixelBGRA m dst formatSize format R G B A).1 (dst + 3) = A) ∧
    ((writePixelXRGB m dst formatSize format R G B A).1 (dst + 1) = R ∧
     (writePixelXRGB m dst formatSize format R G B A).1 (dst + 2) = G ∧
     (writePixelXRGB m dst formatSize format R G B A).1 (dst + 3) = B) ∧
    ((writePixelXBGR m dst formatSize format R G B A).1 (dst + 1) = B ∧
     (writePixelXBGR m dst formatSize format R G B A).1 (dst + 2) = G ∧
     (writePixelXBGR m dst formatSize format R G B A).1 (dst + 3) = R) ∧
    ((writePixelRGBX m dst formatSize format R G B A).1 dst = R ∧
     (writePixelRGBX m dst formatSize format R G B A).1 (dst + 1) = G ∧
     (writePixelRGBX m dst formatSize format R G B A).1 (dst + 2) = B) ∧
    ((writePixelBGRX m dst formatSize format R G B A).1 dst = B ∧
     (writePixelBGRX m dst formatSize format R G B A).1 (dst + 1) = G ∧
     (writePixelBGRX m dst formatSize format R G B A).1 (dst + 2) = R) := by
  simp [writePixelARGB, writePixelABGR, writePixelRGBA, writePixelBGRA, writePixelXRGB,
    writePixelXBGR, writePixelRGBX, writePixelBGRX, store, Nat.add_assoc]

/-- C5: for RGBX32 and BGRX32 with the alpha flag false, the selected strategy
leaves the byte at offset 3 as it was, whatever R, G, B, A and the byte are. -/
theorem X_suffixed_keeps_fourth_byte (api : ColorApi) (hd : api.Distinct) (m : Mem)
    (dst formatSize format R G B A : Nat) :
    ((getPixelWriteFunction api api.PIXEL_FORMAT_RGBX32 false)
        m dst formatSize format R G B A).1 (dst + 3) = m (dst + 3) ∧
    ((getPixelWriteFunction api api.PIXEL_FORMAT_BGRX32 false)
        m dst formatSize format R G B A).1 (dst + 3) = m (dst + 3) := by
  rw [select_RGBX32 api hd, select_BGRX32 api hd]
  simp [writePixelRGBX, writePixelBGRX, store]

/-- A destination filled with `0xAA`, packed with R=1, G=2, B=3: the 4th byte is
still `0xAA` for RGBX32 and for BGRX32. -/
theorem X_suffixed_keeps_fourth_byte_witness :
    sampleApi.Distinct ∧
    ((getPixelWriteFunction sampleApi sampleApi.PIXEL_FORMAT_RGBX32 false)
        memAA 0 4 sampleApi.PIXEL_FORMAT_RGBX32 1 2 3 255).1 3 = 0xAA ∧
    ((getPixelWriteFunction sampleApi sampleApi.PIXEL_FORMAT_BGRX32 false)
        memAA 0 4 sampleApi.PIXEL_FORMAT_BGRX32 1 2 3 255).1 3 = 0xAA :=
  ⟨by decide,
    (X_suffixed_keeps_fourth_byte sampleApi (by decide) memAA 0 4
      sampleApi.PIXEL_FORMAT_RGBX32 1 2 3 255).1,
    (X_suffixed_keeps_fourth_byte sampleApi (by decide) memAA 0 4
      sampleApi.PIXEL_FORMAT_BGRX32 1 2 3 255).2⟩

/-- C6, as stated, fails: for XRGB32 with the alpha flag false the selected
strategy skips offset 0 and stores B at offset 3, so a byte `0xAA` at offset 3
becomes 3 when R=1, G=2, B=3 are packed. -/
theorem offset3_overwritten_for_XRGB32 :
    sampleApi.Distinct ∧
    sampleApi.PIXEL_FORMAT_XRGB32 ∈ sampleApi.enumerated ∧
    memAA (0 + 3) = 0xAA ∧
    ((getPixelWriteFunction sampleApi sampleApi.PIXEL_FORMAT_XRGB32 false)
        memAA 0 4 sampleApi.PIXEL_FORMAT_XRGB32 1 2 3 255).1 (0 + 3) = 3 ∧
    ((getPixelWriteFunction sampleApi sampleApi.PIXEL_FORMAT_XRGB32 false)
        memAA 0 4 sampleApi.PIXEL_FORMAT_XRGB32 1 2 3 255).1 (0 + 3) ≠ memAA (0 + 3) := by
  decide

/-- C6, amended: with the alpha flag false the selected strategy writes three
channel bytes, leaves the fourth byte of the pixel as it was and returns the
cursor advanced by 4; the untouched byte is at offset 3 for RGBA32, RGBX32,
BGRA32 and BGRX32 (channels at offsets 0, 1, 2) and at offset 0 for ARGB32,
XRGB32, ABGR32 and XBGR32 (channels at offsets 1, 2, 3). -/
theorem no_alpha_keeps_padding_byte (api : ColorApi) (hd : api.Distinct) (m : Mem)
    (dst formatSize format R G B A : Nat) :
    (∀ f, f = api.PIXEL_FORMAT_RGBA32 ∨ f = api.PIXEL_FORMAT_RGBX32 →
      ((getPixelWriteFunction api f false) m dst formatSize format R G B A).1 (dst + 3)
        = m (dst + 3) ∧
      ((getPixelWriteFunction api f false) m dst formatSize format R G B A).1 dst = R ∧
      ((getPixelWriteFunction api f false) m dst formatSize format R G B A).1 (dst + 1) = G ∧
      ((getPixelWriteFunction api f false) m dst formatSize format R G B A).1 (dst + 2) = B ∧
      ((getPixelWriteFunction api f false) m dst formatSize format R G B A).2 = dst + 4) ∧
    (∀ f, f = api.PIXEL_FORMAT_BGRA32 ∨ f = api.PIXEL_FORMAT_BGRX32 →
      ((getPixelWriteFunction api f false) m dst formatSize format R G B A).1 (dst + 3)
        = m (dst + 3) ∧
      ((getPixelWriteFunction api f false) m dst formatSize format R G B A).1 dst = B ∧
      ((getPixelWriteFunction api f false) m dst formatSize format R G B A).1 (dst + 1) = G ∧
      ((getPixelWriteFunction api f false) m dst formatSize format R G B A).1 (dst + 2) = R ∧
      ((getPixelWriteFunction api f false) m dst formatSize format R G B A).2 = dst + 4) ∧
    (∀ f, f = api.PIXEL_FORMAT_ARGB32 ∨ f = api.PIXEL_FORMAT_XRGB32 →
      ((getPixelWriteFunction api f false) m dst formatSize format R G B A).1 dst = m dst ∧
      ((getPixelWriteFunction api f false) m dst formatSize format R G B A).1 (dst + 1) = R ∧
      ((getPixelWriteFunction api f false) m dst formatSize format R G B A).1 (dst + 2) = G ∧
      ((getPixelWriteFunction api f false) m dst formatSize format R G B A).1 (dst + 3) = B ∧
      ((getPixelWriteFunction api f false) m dst formatSize format R G B A).2 = dst + 4) ∧
    (∀ f, f = api.PIXEL_FORMAT_ABGR32 ∨ f = api.PIXEL_FORMAT_XBGR32 →
      ((getPixelWriteFunction api f false) m dst formatSize format R G B A).1 dst = m dst ∧
      ((getPixelWriteFunction api f false) m dst formatSize format R G B A).1 (dst + 1) = B ∧
      ((getPixelWriteFunction api f false) m dst formatSize format R G B A).1 (dst + 2) = G ∧
      ((getPixelWriteFunction api f false) m dst formatSize format R G B A).1 (dst + 3) = R ∧
      ((getPixelWriteFunction api f false) m dst formatSize format R G B A).2 = dst + 4) := by
  refine ⟨?_, ?_, ?_, ?_⟩
  · rintro f (rfl | rfl)
    · rw [select_RGBA32 api hd]
      simp [writePixelRGBX, store, Nat.add_assoc]
    · rw [select_RGBX32 api hd]
      simp [writePixelRGBX, store, Nat.add_assoc]
  · rintro f (rfl | rfl)
    · rw [select_BGRA32 api hd]
      simp [writePixelBGRX, store, Nat.add_assoc]
    · rw [select_BGRX32 api hd]
      simp [writePixelBGRX, store, Nat.add_assoc]
  · rintro f (rfl | rfl)
    · rw [select_ARGB32 api]
      simp [writePixelXRGB, store, Nat.add_assoc]
    · rw [select_XRGB32 api]
      simp [writePixelXRGB, store, Nat.add_assoc]
  · rintro f (rfl | rfl)
    · rw [select_ABGR32 api hd]
      simp [writePixelXBGR, store, Nat.add_assoc]
    · rw [select_XBGR32 api hd]
      simp [writePixelXBGR, store, Nat.add_assoc]

/-- A destination filled with `0xAA`, packed with R=1, G=2, B=3 and the alpha flag
false: for XRGB32 the byte at offset 0 is still `0xAA`, for BGRX32 the byte at
offset 3 is. -/
theorem no_alpha_keeps_padding_byte_witness :
    sampleApi.Distinct ∧
    ((getPixelWriteFunction sampleApi sampleApi.PIXEL_FORMAT_XRGB32 false)
        memAA 0 4 sampleApi.PIXEL_FORMAT_XRGB32 1 2 3 255).1 0 = 0xAA ∧
    ((getPixelWriteFunction sampleApi sampleApi.PIXEL_FORMAT_BGRX32 false)
        memAA 0 4 sampleApi.PIXEL_FORMAT_BGRX32 1 2 3 255).1 3 = 0xAA :=
  ⟨by decide,
    ((no_alpha_keeps_padding_byte sampleApi (by decide) memAA 0 4
      sampleApi.PIXEL_FORMAT_XRGB32 1 2 3 255).2.2.1
        sampleApi.PIXEL_FORMAT_XRGB32 (Or.inr rfl)).1,
    ((no_alpha_keeps_padding_byte sampleApi (by decide) memAA 0 4
      sampleApi.PIXEL_FORMAT_BGRX32 1 2 3 255).2.1
        sampleApi.PIXEL_FORMAT_BGRX32 (Or.inr rfl)).1⟩

/-- C7: for each of the eight enumerated formats the choice between the
alpha-writing and the padding-preserving strategy of a channel order depends on
`useAlpha` alone: the A-variant and the X-variant of the identifier select the
same strategy. -/
theorem alpha_decided_by_flag_alone (api : ColorApi) (hd : api.Distinct) :
    (getPixelWriteFunction api api.PIXEL_FORMAT_ARGB32 true = writePixelARGB ∧
     getPixelWriteFunction api api.PIXEL_FORMAT_XRGB32 true = writePixelARGB ∧
     getPixelWriteFunction api api.PIXEL_FORMAT_ARGB32 false = writePixelXRGB ∧
     getPixelWriteFunction api api.PIXEL_FORMAT_XRGB32 false = writePixelXRGB) ∧
    (getPixelWriteFunction api api.PIXEL_FORMAT_ABGR32 true = writePixelABGR ∧
     getPixelWriteFunction api api.PIXEL_FORMAT_XBGR32 true = writePixelABGR ∧
     getPixelWriteFunction api api.PIXEL_FORMAT_ABGR32 false = writePixelXBGR ∧
     getPixelWriteFunction api api.PIXEL_FORMAT_XBGR32 false = writePixelXBGR) ∧
    (getPixelWriteFunction api api.PIXEL_FORMAT_RGBA32 true = writePixelRGBA ∧
     getPixelWriteFunction api api.PIXEL_FORMAT_RGBX32 true = writePixelRGBA ∧
     getPixelWriteFunction api api.PIXEL_FORMAT_RGBA32 false = writePixelRGBX ∧
     getPixelWriteFunction api api.PIXEL_FORMAT_RGBX32 false = writePixelRGBX) ∧
    (getPixelWriteFunction api api.PIXEL_FORMAT_BGRA32 true = writePixelBGRA ∧
     getPixelWriteFunction api api.PIXEL_FORMAT_BGRX32 true = writePixelBGRA ∧
     getPixelWriteFunction api api.PIXEL_FORMAT_BGRA32 false = writePixelBGRX ∧
     getPixelWriteFunction api api.PIXEL_FORMAT_BGRX32 false = writePixelBGRX) := by
  simp [select_ARGB32, select_XRGB32, select_ABGR32 api hd, select_XBGR32 api hd,
    select_RGBA32 api hd, select_RGBX32 api hd, select_BGRA32 api hd, select_BGRX32 api hd]

/-- With the alpha flag true XRGB32 selects `writePixelARGB` and BGRX32 selects
`writePixelBGRA`; with the flag false ARGB32 selects `writePixelXRGB` and BGRA32
selects `writePixelBGRX`. -/
theorem alpha_decided_by_flag_alone_witness :
    sampleApi.Distinct ∧
    getPixelWriteFunction sampleApi sampleApi.PIXEL_FORMAT_XRGB32 true = writePixelARGB ∧
    getPixelWriteFunction sampleApi sampleApi.PIXEL_FORMAT_ARGB32 false = writePixelXRGB ∧
    getPixelWriteFunction sampleApi sampleApi.PIXEL_FORMAT_BGRX32 true = writePixelBGRA ∧
    getPixelWriteFunction sampleApi sampleApi.PIXEL_FORMAT_BGRA32 false = writePixelBGRX :=
  ⟨by decide,
    (alpha_decided_by_flag_alone sampleApi (by decide)).1.2.1,
    (alpha_decided_by_flag_alone sampleApi (by decide)).1.2.2.1,
    (alpha_decided_by_flag_alone sampleApi (by decide)).2.2.2.2.1,
    (alpha_decided_by_flag_alone sampleApi (by decide)).2.2.2.2.2.1⟩

/-- C8: an identifier that is none of the eight enumerated ones selects the
generic strategy, `writePixelGenericAlpha` with `useAlpha` and `writePixelGeneric`
without, and the selected strategy returns the cursor advanced by `formatSize`. -/
theorem other_formats_select_generic (api : ColorApi) (format : Nat)
    (hn : format ∉ api.enumerated) (useAlpha : Bool) (m : Mem)
    (dst formatSize fmt R G B A : Nat) :
    getPixelWriteFunction api format true = writePixelGenericAlpha api ∧
    getPixelWriteFunction api format false = writePixelGeneric api ∧
    ((getPixelWriteFunction api format useAlpha) m dst formatSize fmt R G B A).2
      = dst + formatSize := by
  refine ⟨by simp [select_default api format hn], by simp [select_default api format hn], ?_⟩
  rw [select_default api format hn]
  cases useAlpha <;> simp [writePixelGeneric, writePixelGenericAlpha]

/-- A 24-bit identifier, cursor 10 and `formatSize` 3: the generic strategy is
selected and the returned cursor is 13. -/
theorem other_formats_select_generic_witness :
    sampleRGB24 ∉ sampleApi.enumerated ∧
    getPixelWriteFunction sampleApi sampleRGB24 true = writePixelGenericAlpha sampleApi ∧
    getPixelWriteFunction sampleApi sampleRGB24 false = writePixelGeneric sampleApi ∧
    ((getPixelWriteFunction sampleApi sampleRGB24 false) memAA 10 3 sampleRGB24 1 2 3 255).2
      = 10 + 3 :=
  ⟨by decide, other_formats_select_generic sampleApi sampleRGB24 (by decide) false memAA 10 3
    sampleRGB24 1 2 3 255⟩

/-- C9: each of the eight specialised strategies changes no byte at an offset
outside [0,4) from the cursor and returns the cursor advanced by exactly 4. -/
theorem writePixel_frame (m : Mem) (dst formatSize format R G B A a : Nat)
    (ha : a < dst ∨ dst + 4 ≤ a) :
    ((writePixelBGRA m dst formatSize format R G B A).1 a = m a ∧
     (writePixelBGRA m dst formatSize format R G B A).2 = dst + 4) ∧
    ((writePixelBGRX m dst formatSize format R G B A).1 a = m a ∧
     (writePixelBGRX m dst formatSize format R G B A).2 = dst + 4) ∧
    ((writePixelRGBA m dst formatSize format R G B A).1 a = m a ∧
     (writePixelRGBA m dst formatSize format R G B A).2 = dst + 4) ∧
    ((writePixelRGBX m dst formatSize format R G B A).1 a = m a ∧
     (writePixelRGBX m dst formatSize format R G B A).2 = dst + 4) ∧
    ((writePixelABGR m dst formatSize format R G B A).1 a = m a ∧
     (writePixelABGR m dst formatSize format R G B A).2 = dst + 4) ∧
    ((writePixelXBGR m dst formatSize format R G B A).1 a = m a ∧
     (writePixelXBGR m dst formatSize format R G B A).2 = dst + 4) ∧
    ((writePixelARGB m dst formatSize format R G B A).1 a = m a ∧
     (writePixelARGB m dst formatSize format R G B A).2 = dst + 4) ∧
    ((writePixelXRGB m dst formatSize format R G B A).1 a = m a ∧
     (writePixelXRGB m dst formatSize format R G B A).2 = dst + 4) := by
  have h0 : a ≠ dst := by omega
  have h1 : a ≠ dst + 1 := by omega
  have h2 : a ≠ dst + 2 := by omega
  have h3 : a ≠ dst + 3 := by omega
  simp [writePixelARGB, writePixelABGR, writePixelRGBA, writePixelBGRA, writePixelXRGB,
    writePixelXBGR, writePixelRGBX, writePixelBGRX, store, Nat.add_assoc, h0, h1, h2, h3]

/-- A pixel packed at cursor 4 of a destination filled with `0xAA`: the bytes at
addresses 3 and 8 are unchanged and the returned cursor is 8. -/
theorem writePixel_frame_witness :
    ((3 : Nat) < 4 ∨ 4 + 4 ≤ 3) ∧
    ((writePixelBGRA memAA 4 4 0 1 2 3 255).1 3 = memAA 3 ∧
      (writePixelBGRA memAA 4 4 0 1 2 3 255).2 = 4 + 4) ∧
    ((writePixelXRGB memAA 4 4 0 1 2 3 255).1 8 = memAA 8 ∧
      (writePixelXRGB memAA 4 4 0 1 2 3 255).2 = 4 + 4) :=
  ⟨by decide, (writePixel_frame memAA 4 4 0 1 2 3 255 3 (by decide)).1,
    (writePixel_frame memAA 4 4 0 1 2 3 255 8 (by decide)).2.2.2.2.2.2.2⟩

/-! ## Further properties of the clipping helper and the colour transform -/

/-- C11, as stated, fails: `original = 240` and the computed value 290 are 50
apart, yet the value is first clipped to 255, which is 15 from `original`, and
`original` is returned instead of the clipped value. -/
theorem CONDITIONAL_CLIP_far_input_returns_original :
    ((240 : Nat) ≤ 255) ∧ |(290 : Int) - ((240 : Nat) : Int)| ≥ 30 ∧
    CLIP 290 = 255 ∧ CONDITIONAL_CLIP 290 240 = 240 ∧
    CONDITIONAL_CLIP 290 240 ≠ CLIP 290 := by
  decide

/-- C11, amended: when the clipped value `CLIP in` is 30 or more away from
`original`, `CONDITIONAL_CLIP` returns the clipped value; this covers every
computed value in [0,255] that is 30 or more away from `original`. -/
theorem CONDITIONAL_CLIP_30_away (inp : Int) (original : Nat) (h : original ≤ 255) :
    (|(CLIP inp : Int) - (original : Int)| ≥ 30 → CONDITIONAL_CLIP inp original = CLIP inp) ∧
    (0 ≤ inp → inp ≤ 255 → |inp - (original : Int)| ≥ 30 →
      CONDITIONAL_CLIP inp original = CLIP inp ∧ (CLIP inp : Int) = inp) := by
  have hs := CONDITIONAL_CLIP_spec inp original h
  constructor
  · intro hd
    rw [hs, if_neg (not_lt.mpr hd)]
  · intro h0 h1 hd
    have hc : (CLIP inp : Int) = inp := by
      rw [CLIP_eq_clip_u8]
      unfold clip_u8
      omega
    refine ⟨?_, hc⟩
    rw [hs, if_neg]
    rw [hc]
    exact not_lt.mpr hd

/-- With `original = 100` the computed value 130 is 30 away and 130 is returned. -/
theorem CONDITIONAL_CLIP_30_away_witness :
    (100 ≤ 255) ∧ |(130 : Int) - ((100 : Nat) : Int)| ≥ 30 ∧ CONDITIONAL_CLIP 130 100 = 130 :=
  ⟨by decide, by decide,
    ((CONDITIONAL_CLIP_30_away 130 100 (by decide)).2 (by decide) (by decide)
      (by decide)).1.trans (by decide)⟩

/-- C17: with neutral chroma (U = V = 128) the three channels equal Y for every Y
in [0,255]; `YUV2R` does not depend on U and `YUV2B` does not depend on V, for any
inputs. -/
theorem neutral_chroma_is_gray (Y : Int) (hY : 0 ≤ Y ∧ Y ≤ 255) :
    ((YUV2R Y 128 128 : Int) = Y ∧ (YUV2G Y 128 128 : Int) = Y ∧
      (YUV2B Y 128 128 : Int) = Y) ∧
    (∀ Y1 U1 U2 V1 : Int, YUV2R Y1 U1 V1 = YUV2R Y1 U2 V1) ∧
    (∀ Y1 U1 V1 V2 : Int, YUV2B Y1 U1 V1 = YUV2B Y1 U1 V2) := by
  refine ⟨⟨?_, ?_, ?_⟩, ?_, ?_⟩
  · rw [YUV2R_eq Y 128 128 hY (by omega), CLIP_eq_clip_u8]
    unfold clip_u8
    omega
  · rw [YUV2G_eq Y 128 128 hY (by omega) (by omega), CLIP_eq_clip_u8]
    unfold clip_u8
    omega
  · rw [YUV2B_eq Y 128 128 hY (by omega), CLIP_eq_clip_u8]
    unfold clip_u8
    omega
  · intro Y1 U1 U2 V1
    unfold YUV2R
    simp only [zero_mul]
  · intro Y1 U1 V1 V2
    unfold YUV2B
    simp only [zero_mul]

/-- Neutral chroma at Y = 77 gives the gray (77, 77, 77); changing U leaves R and
changing V leaves B as they were. -/
theorem neutral_chroma_is_gray_witness :
    ((0 : Int) ≤ 77 ∧ (77 : Int) ≤ 255) ∧
    ((YUV2R 77 128 128 : Int) = 77 ∧ (YUV2G 77 128 128 : Int) = 77 ∧
      (YUV2B 77 128 128 : Int) = 77) ∧
    YUV2R 77 0 200 = YUV2R 77 255 200 ∧ YUV2B 77 200 0 = YUV2B 77 200 255 :=
  ⟨by decide, (neutral_chroma_is_gray 77 (by decide)).1,
    (neutral_chroma_is_gray 77 (by decide)).2.1 77 0 255 200,
    (neutral_chroma_is_gray 77 (by decide)).2.2 77 200 0 255⟩

end PrimInternal

namespace XfKeyboard

/-! ## Helper lemmas -/

theorem key_pressed_some (api : KbdApi) (xfc : xfContext) (keysym : Nat)
    (hs : 256 ≤ xfc.KeyboardState.length) :
    xf_keyboard_key_pressed api xfc keysym
      = some (xfc.KeyboardState.getD (api.XKeysymToKeycode keysym % 256) false) := by
  unfold xf_keyboard_key_pressed
  have h : api.XKeysymToKeycode keysym % 256 < xfc.KeyboardState.length := by omega
  simp only [h, if_true]

theorem get_modifier_keys_some (api : KbdApi) (xfc : xfContext)
    (hs : 256 ≤ xfc.KeyboardState.length) :
    ∃ mod, xk_keyboard_get_modifier_keys api xfc = some mod := by
  unfold xk_keyboard_get_modifier_keys
  simp only [key_pressed_some api xfc _ hs, Option.bind_eq_bind, Option.some_bind, Option.pure_def]
  exact ⟨_, rfl⟩

theorem get_keymask_some (api : KbdApi) (xfc : xfContext) (keysym : Nat)
    (hmap : xfc.modifierMap.isSome) :
    ∃ mask, xf_keyboard_get_keymask api xfc keysym = some mask := by
  obtain ⟨map, hm⟩ := Option.isSome_iff_exists.mp hmap
  unfold xf_keyboard_get_keymask
  by_cases h : api.XKeysymToKeycode keysym % 256 = api.NoSymbol
  · exact ⟨0, by simp only [h, if_true]⟩
  · simp only [h, if_false, hm]
    exact ⟨_, rfl⟩

theorem get_key_state_some (api : KbdApi) (xfc : xfContext) (state keysym : Nat)
    (hmap : xfc.modifierMap.isSome) :
    ∃ b, xf_keyboard_get_key_state api xfc state keysym = some b := by
  obtain ⟨mask, hmask⟩ := get_keymask_some api xfc keysym hmap
  unfold xf_keyboard_get_key_state
  rw [hmask]
  by_cases h : mask = 0
  · simp only [h, if_true]
    exact ⟨_, rfl⟩
  · simp only [h, if_false]
    exact ⟨_, rfl⟩

theorem read_keyboard_state_some (api : KbdApi) (xfc : xfContext)
    (hq : ∀ w, api.XQueryPointer w % 4294967296 < 2147483648) :
    ∃ state, xf_keyboard_read_keyboard_state api xfc = some state := by
  unfold xf_keyboard_read_keyboard_state
  cases xfc.remote_app <;> cases xfc.window <;> simp [hq]

theorem sync_kbd_state_some (api : KbdApi) (xfc : xfContext)
    (hmap : xfc.modifierMap.isSome)
    (hq : ∀ w, api.XQueryPointer w % 4294967296 < 2147483648) :
    ∃ flags, xf_sync_kbd_state api xfc = some (send xfc (.synchronize_event flags)) := by
  obtain ⟨state, hstate⟩ := read_keyboard_state_some api xfc hq
  obtain ⟨b1, h1⟩ := get_key_state_some api xfc state api.XK_Scroll_Lock hmap
  obtain ⟨b2, h2⟩ := get_key_state_some api xfc state api.XK_Num_Lock hmap
  obtain ⟨b3, h3⟩ := get_key_state_some api xfc state api.XK_Caps_Lock hmap
  obtain ⟨b4, h4⟩ := get_key_state_some api xfc state api.XK_Kana_Lock hmap
  unfold xf_sync_kbd_state xf_keyboard_get_toggle_keys_state
  simp only [hstate, h1, h2, h3, h4, Option.bind_eq_bind, Option.some_bind, Option.pure_def]
  exact ⟨_, rfl⟩

theorem sends_nothing (xfc : xfContext) :
    ∃ calls, some xfc = some { xfc with inputCalls := xfc.inputCalls ++ calls } :=
  ⟨[], by simp⟩

theorem sends_one (xfc : xfContext) (call : InputCall) :
    ∃ calls, some (send xfc call) = some { xfc with inputCalls := xfc.inputCalls ++ calls } :=
  ⟨[call], rfl⟩

theorem sync_after_sends (api : KbdApi) (xfc : xfContext) (sent : List InputCall)
    (hmap : xfc.modifierMap.isSome)
    (hq : ∀ w, api.XQueryPointer w % 4294967296 < 2147483648) :
    ∃ calls, xf_sync_kbd_state api { xfc with inputCalls := xfc.inputCalls ++ sent }
      = some { xfc with inputCalls := xfc.inputCalls ++ calls } := by
  obtain ⟨flags, hf⟩ :=
    sync_kbd_state_some api { xfc with inputCalls := xfc.inputCalls ++ sent } hmap hq
  refine ⟨sent ++ [.synchronize_event flags], ?_⟩
  rw [hf]
  simp [send]

theorem send_key_event_sends (api : KbdApi) (xfc : xfContext) (down isRepeat : Bool)
    (event : XKeyEvent) (rdp_scancode : Nat) :
    ∃ sent, send_key_event api xfc down isRepeat event rdp_scancode
      = { xfc with inputCalls := xfc.inputCalls ++ sent } := by
  unfold send_key_event
  dsimp only
  split_ifs <;> first | exact ⟨[_], rfl⟩ | exact ⟨[], by simp⟩

theorem pause_without_ctrl_some (api : KbdApi) (xfc : xfContext) (rdp_scancode : Nat)
    (hs : 256 ≤ xfc.KeyboardState.length) :
    ∃ p, pause_without_ctrl api xfc rdp_scancode = some p := by
  unfold pause_without_ctrl
  simp only [key_pressed_some api xfc _ hs, Option.bind_eq_bind, Option.some_bind,
    Option.pure_def]
  split_ifs <;> exact ⟨_, rfl⟩

theorem send_key_sends (api : KbdApi) (xfc : xfContext) (down isRepeat : Bool)
    (event : XKeyEvent) (hs : 256 ≤ xfc.KeyboardState.length)
    (hsync : down = true ∨ (xfc.modifierMap.isSome ∧
      ∀ w, api.XQueryPointer w % 4294967296 < 2147483648)) :
    ∃ calls, xf_keyboard_send_key api xfc down isRepeat event
      = some { xfc with inputCalls := xfc.inputCalls ++ calls } := by
  obtain ⟨p, hp⟩ := pause_without_ctrl_some api xfc
    (api.freerdp_keyboard_get_rdp_scancode_from_x11_keycode event.keycode) hs
  obtain ⟨sent, hsent⟩ := send_key_event_sends api xfc down isRepeat event
    (api.freerdp_keyboard_get_rdp_scancode_from_x11_keycode event.keycode)
  unfold xf_keyboard_send_key
  simp only [Option.bind_eq_bind, Option.pure_def, hp, Option.some_bind, hsent]
  cases p
  · simp only [Bool.false_eq_true, if_false]
    by_cases hc : api.freerdp_keyboard_get_rdp_scancode_from_x11_keycode event.keycode
        = api.RDP_SCANCODE_CAPSLOCK ∧ down = false
    · rw [if_pos hc]
      rcases hsync with hd | ⟨hmap, hq⟩
      · rw [hd] at hc
        exact absurd hc.2 (by decide)
      · exact sync_after_sends api xfc sent hmap hq
    · rw [if_neg hc]
      exact ⟨sent, rfl⟩
  · simp only [if_true]
    cases down
    · exact sends_nothing xfc
    · exact sends_one xfc _

theorem rightCtrlFlags_fields (api : KbdApi) (xfc : xfContext) (mod : XF_MODIFIER_KEYS)
    (keysym : Nat) :
    (rightCtrlFlags api xfc mod keysym).KeyboardState = xfc.KeyboardState ∧
    (rightCtrlFlags api xfc mod keysym).actionScriptExists = xfc.actionScriptExists ∧
    (rightCtrlFlags api xfc mod keysym).modifierMap = xfc.modifierMap := by
  unfold rightCtrlFlags
  split_ifs <;> exact ⟨rfl, rfl, rfl⟩

theorem execute_without_script (api : KbdApi) (xfc : xfContext) (mod : XF_MODIFIER_KEYS)
    (keysym : Nat) (h : xfc.actionScriptExists = false) :
    xf_keyboard_execute_action_script api xfc mod keysym = 1 := by
  unfold xf_keyboard_execute_action_script
  simp [h]

theorem handle_special_keys_eq (api : KbdApi) (xfc : xfContext) (keysym : Nat)
    (hs : 256 ≤ xfc.KeyboardState.length) :
    ∃ mod, xk_keyboard_get_modifier_keys api xfc = some mod ∧
      xf_keyboard_handle_special_keys api xfc keysym
        = some (rightCtrlFlags api xfc mod keysym,
            decide (xf_keyboard_execute_action_script api
              (rightCtrlFlags api xfc mod keysym) mod keysym = 0)) := by
  obtain ⟨mod, hmod⟩ := get_modifier_keys_some api xfc hs
  refine ⟨mod, hmod, ?_⟩
  unfold xf_keyboard_handle_special_keys
  simp only [hmod, Option.bind_eq_bind, Option.some_bind, Option.pure_def]
  split_ifs with h1 h2
  · have h : ¬ xf_keyboard_execute_action_script api
        (rightCtrlFlags api xfc mod keysym) mod keysym = 0 := by omega
    simp only [h, decide_False]
  · simp only [h2, decide_True]
  · simp only [h2, decide_False]

theorem handle_without_script (api : KbdApi) (xfc : xfContext) (keysym : Nat)
    (hs : 256 ≤ xfc.KeyboardState.length) (ha : xfc.actionScriptExists = false) :
    ∃ mod, xf_keyboard_handle_special_keys api xfc keysym
      = some (rightCtrlFlags api xfc mod keysym, false) := by
  obtain ⟨mod, -, hh⟩ := handle_special_keys_eq api xfc keysym hs
  have he := execute_without_script api (rightCtrlFlags api xfc mod keysym) mod keysym
    ((rightCtrlFlags_fields api xfc mod keysym).2.1.trans ha)
  refine ⟨mod, ?_⟩
  rw [hh, he]
  rfl

theorem special_keys_release_fields (api : KbdApi) (xfc : xfContext) (keysym : Nat)
    (hs : 256 ≤ xfc.KeyboardState.length) :
    ∃ xfc1, xf_keyboard_handle_special_keys_release api xfc keysym = some xfc1 ∧
      xfc1.KeyboardState = xfc.KeyboardState ∧ xfc1.modifierMap = xfc.modifierMap := by
  unfold xf_keyboard_handle_special_keys_release
  by_cases hk : keysym ≠ api.XK_Control_R
  · rw [if_pos hk]
    exact ⟨_, rfl, rfl, rfl⟩
  · rw [if_neg hk]
    dsimp only
    by_cases hu : xfc.ungrabKeyboardWithRightCtrl = true
    · rw [if_neg (by simp [hu])]
      obtain ⟨mod, hmod⟩ := get_modifier_keys_some api
        { xfc with wasRightCtrlAlreadyPressed := false } hs
      rw [hmod]
      exact ⟨_, rfl, rfl, rfl⟩
    · rw [if_pos (by simpa using hu)]
      exact ⟨_, rfl, rfl, rfl⟩

theorem take_succ_set (l : List Bool) (k : Nat) (v : Bool) (h : k < l.length) :
    (l.set k v).take (k + 1) = l.take k ++ [v] := by
  induction l generalizing k with
  | nil => simp at h
  | cons a t ih =>
    cases k with
    | zero => simp
    | succ n =>
      have hn : n < t.length := by simpa using h
      simp [ih n hn]

theorem take_succ_getD (l : List Bool) (k : Nat) (h : k < l.length) :
    l.take (k + 1) = l.take k ++ [l.getD k false] := by
  induction l generalizing k with
  | nil => simp at h
  | cons a t ih =>
    cases k with
    | zero => simp
    | succ n =>
      have hn : n < t.length := by simpa using h
      simp [ih n hn]

theorem releasesOf_set (api : KbdApi) (l : List Bool) (k j : Nat) (v : Bool) (h : j ≠ k) :
    releasesOf api (l.set k v) j = releasesOf api l j := by
  unfold releasesOf
  have hg : (l.set k v).getD j false = l.getD j false := by
    simp [List.getD_eq_getElem?_getD, List.getElem?_set, Ne.symm h]
  rw [hg]

theorem release_all_loop_eq (api : KbdApi) (todo : Nat) :
    ∀ (keycode : Nat) (xfc : xfContext), keycode + todo = xfc.KeyboardState.length →
      release_all_loop api todo keycode xfc
        = { xfc with
            KeyboardState := xfc.KeyboardState.take keycode ++ List.replicate todo false
            inputCalls := xfc.inputCalls ++
              (List.range' keycode todo).flatMap (releasesOf api xfc.KeyboardState) } := by
  induction todo with
  | zero =>
    intro keycode xfc h
    have hk : keycode = xfc.KeyboardState.length := by omega
    simp [release_all_loop, hk]
  | succ n ih =>
    intro keycode xfc h
    have hk : keycode < xfc.KeyboardState.length := by omega
    rw [release_all_loop, if_pos hk]
    by_cases hd : xfc.KeyboardState.getD keycode false = true
    · simp only [hd, if_true]
      rw [ih]
      · have hcongr : (List.range' (keycode + 1) n).flatMap
            (releasesOf api (xfc.KeyboardState.set keycode false))
            = (List.range' (keycode + 1) n).flatMap (releasesOf api xfc.KeyboardState) := by
          apply List.flatMap_congr
          intro j hj
          have hjk : j ≠ keycode := by
            have := (List.mem_range'_1.mp hj).1
            omega
          exact releasesOf_set api xfc.KeyboardState keycode j false hjk
        have hrel : releasesOf api xfc.KeyboardState keycode
            = (if api.freerdp_keyboard_get_rdp_scancode_from_x11_keycode (keycode % 4294967296)
                  = api.RDP_SCANCODE_LWIN then
                [InputCall.keyboard_event_ex false false api.RDP_SCANCODE_TAB]
              else []) ++
              [InputCall.keyboard_event_ex false false
                (api.freerdp_keyboard_get_rdp_scancode_from_x11_keycode
                  (keycode % 4294967296))] := by
          unfold releasesOf
          rw [if_pos hd]
        simp only [List.range'_succ, List.flatMap_cons, hrel]
        split_ifs <;>
          simp [send, take_succ_set xfc.KeyboardState keycode false hk, List.replicate_succ,
            hcongr]
      · simp only [send]
        split_ifs <;> simp <;> omega
    · have hf : xfc.KeyboardState.getD keycode false = false := by simpa using hd
      simp only [hf, Bool.false_eq_true, if_false]
      rw [ih keycode.succ xfc (by omega)]
      have hrel : releasesOf api xfc.KeyboardState keycode = [] := by
        unfold releasesOf
        rw [if_neg hd]
      have hf2 : xfc.KeyboardState[keycode]?.getD false = false := by
        rw [← List.getD_eq_getElem?_getD]
        exact hf
      simp [List.range'_succ, List.flatMap_cons, hrel,
        take_succ_getD xfc.KeyboardState keycode hk, hf, hf2, List.replicate_succ]

/-! ## Key handling -/

/-- C13: without an action script `xf_keyboard_handle_special_keys` returns FALSE
for every key symbol and every state of the modifier keys, so
`xf_keyboard_key_press` ends in the call of `xf_keyboard_send_key` for the key;
in general `xf_keyboard_handle_special_keys` returns TRUE exactly when
`xf_keyboard_execute_action_script` returns 0. -/
theorem special_keys_only_by_action_script (api : KbdApi) (xfc : xfContext) (keysym : Nat)
    (hs : 256 ≤ xfc.KeyboardState.length) :
    (xfc.actionScriptExists = false →
      ∃ xfc1, xf_keyboard_handle_special_keys api xfc keysym = some (xfc1, false)) ∧
    (xfc.actionScriptExists = false →
      ∀ event : XKeyEvent, event.keycode < xfc.KeyboardState.length →
        ∃ xfc1 xfc2,
          xf_keyboard_handle_special_keys api
            { xfc with KeyboardState := xfc.KeyboardState.set event.keycode true } keysym
              = some (xfc1, false) ∧
          xf_keyboard_send_key api xfc1 true (xfc.KeyboardState.getD event.keycode false) event
            = some xfc2 ∧
          xf_keyboard_key_press api xfc event keysym = some xfc2) ∧
    (∃ mod xfc1, xk_keyboard_get_modifier_keys api xfc = some mod ∧
      xf_keyboard_handle_special_keys api xfc keysym
        = some (xfc1, decide (xf_keyboard_execute_action_script api xfc1 mod keysym = 0))) := by
  refine ⟨?_, ?_, ?_⟩
  · intro ha
    obtain ⟨mod, hh⟩ := handle_without_script api xfc keysym hs ha
    exact ⟨_, hh⟩
  · intro ha event hk
    have hs1 : 256 ≤ (xfc.KeyboardState.set event.keycode true).length := by
      simpa using hs
    obtain ⟨mod, hh⟩ := handle_without_script api
      { xfc with KeyboardState := xfc.KeyboardState.set event.keycode true } keysym hs1 ha
    have hs2 : 256 ≤ (rightCtrlFlags api
        { xfc with KeyboardState := xfc.KeyboardState.set event.keycode true }
        mod keysym).KeyboardState.length := by
      rw [(rightCtrlFlags_fields api
        { xfc with KeyboardState := xfc.KeyboardState.set event.keycode true } mod keysym).1]
      exact hs1
    obtain ⟨calls, hsend⟩ := send_key_sends api (rightCtrlFlags api
        { xfc with KeyboardState := xfc.KeyboardState.set event.keycode true } mod keysym) true
      (xfc.KeyboardState.getD event.keycode false) event hs2 (Or.inl rfl)
    refine ⟨_, _, hh, hsend, ?_⟩
    unfold xf_keyboard_key_press
    rw [if_pos hk]
    simp only [hh, Option.bind_eq_bind, Option.some_bind, Bool.false_eq_true, if_false]
    exact hsend
  · obtain ⟨mod, hmod, hh⟩ := handle_special_keys_eq api xfc keysym hs
    exact ⟨mod, _, hmod, hh⟩

/-- C14: a press of a key symbol other than `XK_Control_R` leaves
`ungrabKeyboardWithRightCtrl` FALSE; a release of `XK_Control_R` leaves it and
`wasRightCtrlAlreadyPressed` FALSE; a release of any other key symbol changes
nothing. -/
theorem right_ctrl_ungrab_flags (api : KbdApi) (xfc : xfContext) (keysym : Nat)
    (hs : 256 ≤ xfc.KeyboardState.length) :
    (keysym ≠ api.XK_Control_R →
      ∃ xfc1 handled, xf_keyboard_handle_special_keys api xfc keysym = some (xfc1, handled) ∧
        xfc1.ungrabKeyboardWithRightCtrl = false) ∧
    (∃ xfc1, xf_keyboard_handle_special_keys_release api xfc api.XK_Control_R = some xfc1 ∧
      xfc1.ungrabKeyboardWithRightCtrl = false ∧ xfc1.wasRightCtrlAlreadyPressed = false) ∧
    (keysym ≠ api.XK_Control_R →
      xf_keyboard_handle_special_keys_release api xfc keysym = some xfc) := by
  refine ⟨?_, ?_, ?_⟩
  · intro hne
    obtain ⟨mod, -, hh⟩ := handle_special_keys_eq api xfc keysym hs
    refine ⟨_, _, hh, ?_⟩
    unfold rightCtrlFlags
    rw [if_neg hne]
    by_cases hu : xfc.ungrabKeyboardWithRightCtrl = true
    · rw [if_pos hu]
    · rw [if_neg hu]
      simpa using hu
  · unfold xf_keyboard_handle_special_keys_release
    rw [if_neg (not_not.mpr rfl)]
    dsimp only
    by_cases hu : xfc.ungrabKeyboardWithRightCtrl = true
    · rw [if_neg (by simp [hu])]
      obtain ⟨mod, hmod⟩ := get_modifier_keys_some api
        { xfc with wasRightCtrlAlreadyPressed := false } hs
      rw [hmod]
      exact ⟨_, rfl, rfl, rfl⟩
    · rw [if_pos (by simpa using hu)]
      exact ⟨_, rfl, by simpa using hu, rfl⟩
  · intro hne
    unfold xf_keyboard_handle_special_keys_release
    rw [if_pos hne]

/-- C16: for a key code within the bounds of `KeyboardState`,
`xf_keyboard_key_press` sets the entry of the key code to TRUE and
`xf_keyboard_key_release` sets it to FALSE, every other entry keeping its value,
and the repeat flag passed to `xf_keyboard_send_key` is the value the entry had
before the call.  A press is passed on unless `xf_keyboard_handle_special_keys`
returned TRUE; a release is always passed on (the synchronisation after a
Caps Lock release asserts a modifier map and a pointer state that fits an `int`). -/
theorem key_press_release_update (api : KbdApi) (xfc : xfContext) (event : XKeyEvent)
    (keysym : Nat) (hk : event.keycode < xfc.KeyboardState.length)
    (hs : 256 ≤ xfc.KeyboardState.length) :
    (∃ xfc1 handled xfc2,
      xf_keyboard_handle_special_keys api
        { xfc with KeyboardState := xfc.KeyboardState.set event.keycode true } keysym
          = some (xfc1, handled) ∧
      xf_keyboard_key_press api xfc event keysym = some xfc2 ∧
      (handled = true → xfc2 = xfc1) ∧
      (handled = false →
        xf_keyboard_send_key api xfc1 true (xfc.KeyboardState.getD event.keycode false) event
          = some xfc2) ∧
      xfc2.KeyboardState = xfc.KeyboardState.set event.keycode true ∧
      xfc2.KeyboardState[event.keycode]? = some true ∧
      (∀ j, j ≠ event.keycode → xfc2.KeyboardState[j]? = xfc.KeyboardState[j]?)) ∧
    (xfc.modifierMap.isSome → (∀ w, api.XQueryPointer w % 4294967296 < 2147483648) →
      ∃ xfc1 xfc2,
        xf_keyboard_handle_special_keys_release api
          { xfc with KeyboardState := xfc.KeyboardState.set event.keycode false } keysym
            = some xfc1 ∧
        xf_keyboard_key_release api xfc event keysym = some xfc2 ∧
        xf_keyboard_send_key api xfc1 false (xfc.KeyboardState.getD event.keycode false) event
          = some xfc2 ∧
        xfc2.KeyboardState = xfc.KeyboardState.set event.keycode false ∧
        xfc2.KeyboardState[event.keycode]? = some false ∧
        (∀ j, j ≠ event.keycode → xfc2.KeyboardState[j]? = xfc.KeyboardState[j]?)) := by
  have hentry : ∀ (b : Bool) (ks : List Bool), ks = xfc.KeyboardState.set event.keycode b →
      ks[event.keycode]? = some b ∧
      (∀ j, j ≠ event.keycode → ks[j]? = xfc.KeyboardState[j]?) := by
    intro b ks hks
    subst hks
    refine ⟨by simp [List.getElem?_set, hk], ?_⟩
    intro j hj
    simp [List.getElem?_set, Ne.symm hj]
  constructor
  · have hs1 : 256 ≤ (xfc.KeyboardState.set event.keycode true).length := by
      simpa using hs
    obtain ⟨mod, -, hh⟩ := handle_special_keys_eq api
      { xfc with KeyboardState := xfc.KeyboardState.set event.keycode true } keysym hs1
    have hf := rightCtrlFlags_fields api
      { xfc with KeyboardState := xfc.KeyboardState.set event.keycode true } mod keysym
    generalize hdec : decide (xf_keyboard_execute_action_script api
      (rightCtrlFlags api
        { xfc with KeyboardState := xfc.KeyboardState.set event.keycode true } mod keysym)
      mod keysym = 0) = handled at hh
    have hpress : xf_keyboard_key_press api xfc event keysym
        = if handled = true then
            some (rightCtrlFlags api
              { xfc with KeyboardState := xfc.KeyboardState.set event.keycode true }
              mod keysym)
          else xf_keyboard_send_key api (rightCtrlFlags api
              { xfc with KeyboardState := xfc.KeyboardState.set event.keycode true }
              mod keysym) true (xfc.KeyboardState.getD event.keycode false) event := by
      unfold xf_keyboard_key_press
      rw [if_pos hk]
      simp only [hh, Option.bind_eq_bind, Option.some_bind, Option.pure_def]
    cases handled
    · have hs2 : 256 ≤ (rightCtrlFlags api
          { xfc with KeyboardState := xfc.KeyboardState.set event.keycode true }
          mod keysym).KeyboardState.length := by
        rw [hf.1]
        exact hs1
      obtain ⟨calls, hsend⟩ := send_key_sends api (rightCtrlFlags api
          { xfc with KeyboardState := xfc.KeyboardState.set event.keycode true } mod keysym)
        true (xfc.KeyboardState.getD event.keycode false) event hs2 (Or.inl rfl)
      rw [if_neg (by decide)] at hpress
      refine ⟨_, false, _, hh, hpress.trans hsend, fun h => absurd h (by decide),
        fun _ => hsend, hf.1, hentry true _ hf.1⟩
    · rw [if_pos rfl] at hpress
      exact ⟨_, true, _, hh, hpress, fun _ => rfl, fun h => absurd h (by decide), hf.1,
        hentry true _ hf.1⟩
  · intro hmap hq
    have hs1 : 256 ≤ (xfc.KeyboardState.set event.keycode false).length := by
      simpa using hs
    obtain ⟨xfc1, hrel, hks, hmm⟩ := special_keys_release_fields api
      { xfc with KeyboardState := xfc.KeyboardState.set event.keycode false } keysym hs1
    have hs2 : 256 ≤ xfc1.KeyboardState.length := by
      rw [hks]
      exact hs1
    have hmap1 : xfc1.modifierMap.isSome := by
      rw [hmm]
      exact hmap
    obtain ⟨calls, hsend⟩ := send_key_sends api xfc1 false
      (xfc.KeyboardState.getD event.keycode false) event hs2 (Or.inr ⟨hmap1, hq⟩)
    have hrelease : xf_keyboard_key_release api xfc event keysym
        = xf_keyboard_send_key api xfc1 false (xfc.KeyboardState.getD event.keycode false)
            event := by
      unfold xf_keyboard_key_release
      rw [if_pos hk]
      simp only [hrel, Option.bind_eq_bind, Option.some_bind]
    exact ⟨xfc1, _, hrel, hrelease.trans hsend, hsend, hks, hentry false _ hks⟩

/-- C15: `xf_keyboard_release_all_keypress` sends, in increasing key code order,
one key release (down FALSE, repeat FALSE) with the scan code of each key code
whose `KeyboardState` entry was TRUE and nothing for the others; a release whose
scan code is `RDP_SCANCODE_LWIN` is immediately preceded by a release of
`RDP_SCANCODE_TAB`; every `KeyboardState` entry is FALSE afterwards.  The
function ends with the synchronize event of `xf_sync_kbd_state`, which asserts
a modifier map and a pointer state that fits an `int`. -/
theorem release_all_keypress_releases (api : KbdApi) (xfc : xfContext)
    (hmap : xfc.modifierMap.isSome)
    (hq : ∀ w, api.XQueryPointer w % 4294967296 < 2147483648) :
    ∃ flags, xf_keyboard_release_all_keypress api xfc
      = some { xfc with
          KeyboardState := List.replicate xfc.KeyboardState.length false
          inputCalls := xfc.inputCalls ++
            (List.range xfc.KeyboardState.length).flatMap (fun keycode =>
              if xfc.KeyboardState.getD keycode false then
                (if api.freerdp_keyboard_get_rdp_scancode_from_x11_keycode
                      (keycode % 4294967296) = api.RDP_SCANCODE_LWIN then
                  [InputCall.keyboard_event_ex false false api.RDP_SCANCODE_TAB]
                else []) ++
                [InputCall.keyboard_event_ex false false
                  (api.freerdp_keyboard_get_rdp_scancode_from_x11_keycode
                    (keycode % 4294967296))]
              else []) ++
            [InputCall.synchronize_event flags] } := by
  unfold xf_keyboard_release_all_keypress
  rw [release_all_loop_eq api xfc.KeyboardState.length 0 xfc (by omega)]
  obtain ⟨flags, hf⟩ := sync_kbd_state_some api
    { xfc with
      KeyboardState := xfc.KeyboardState.take 0 ++ List.replicate xfc.KeyboardState.length false
      inputCalls := xfc.inputCalls ++
        (List.range' 0 xfc.KeyboardState.length).flatMap (releasesOf api xfc.KeyboardState) }
    hmap hq
  refine ⟨flags, ?_⟩
  dsimp only
  rw [hf]
  simp only [send, List.take_zero, List.nil_append, List.range_eq_range', List.append_assoc]
  rfl

/-! ## The theorems at the sample keyboard -/

set_option maxRecDepth 100000

/-- Without a script the key `a` is not handled and its press is sent on as scan
code `0x1E`; with a script that knows `Ctrl+a` and Left Ctrl down it is handled. -/
theorem special_keys_only_by_action_script_witness :
    256 ≤ sampleCtx.KeyboardState.length ∧ sampleCtx.actionScriptExists = false ∧
    (∃ xfc1, xf_keyboard_handle_special_keys sampleKbd sampleCtx 0x61 = some (xfc1, false)) ∧
    (xf_keyboard_key_press sampleKbd sampleCtx ⟨38, 0⟩ 0x61).map (fun c => c.inputCalls)
      = some [InputCall.keyboard_event_ex true false 0x1E] ∧
    (xf_keyboard_handle_special_keys sampleKbd sampleScriptCtx 0x61).map Prod.snd = some true :=
  ⟨by decide, by decide,
    (special_keys_only_by_action_script sampleKbd sampleCtx 0x61 (by decide)).1 (by decide),
    by decide, by decide⟩

/-- In the sample context both flags are set: the press of `a` clears the ungrab
flag, the release of Right Ctrl clears both, the release of `a` changes nothing. -/
theorem right_ctrl_ungrab_flags_witness :
    256 ≤ sampleCtx.KeyboardState.length ∧
    (0x61 ≠ sampleKbd.XK_Control_R) ∧
    sampleCtx.ungrabKeyboardWithRightCtrl = true ∧
    (∃ xfc1 handled, xf_keyboard_handle_special_keys sampleKbd sampleCtx 0x61
        = some (xfc1, handled) ∧ xfc1.ungrabKeyboardWithRightCtrl = false) ∧
    (∃ xfc1, xf_keyboard_handle_special_keys_release sampleKbd sampleCtx sampleKbd.XK_Control_R
        = some xfc1 ∧
      xfc1.ungrabKeyboardWithRightCtrl = false ∧ xfc1.wasRightCtrlAlreadyPressed = false) ∧
    xf_keyboard_handle_special_keys_release sampleKbd sampleCtx 0x61 = some sampleCtx :=
  ⟨by decide, by decide, by decide,
    (right_ctrl_ungrab_flags sampleKbd sampleCtx 0x61 (by decide)).1 (by decide),
    (right_ctrl_ungrab_flags sampleKbd sampleCtx 0x61 (by decide)).2.1,
    (right_ctrl_ungrab_flags sampleKbd sampleCtx 0x61 (by decide)).2.2 (by decide)⟩

/-- In the sample context Tab (23), Left Shift (50) and the left Windows key (133)
are down: their releases are sent in this order, Tab once more before the
Windows key, then the synchronize event. -/
theorem release_all_keypress_releases_witness :
    sampleCtx.modifierMap.isSome ∧
    (∀ w, sampleKbd.XQueryPointer w % 4294967296 < 2147483648) ∧
    (xf_keyboard_release_all_keypress sampleKbd sampleCtx).map (fun c => c.inputCalls)
      = some [InputCall.keyboard_event_ex false false 0x0F,
              InputCall.keyboard_event_ex false false 0x2A,
              InputCall.keyboard_event_ex false false 0x0F,
              InputCall.keyboard_event_ex false false 0x15B,
              InputCall.synchronize_event 6] ∧
    (xf_keyboard_release_all_keypress sampleKbd sampleCtx).map (fun c => c.KeyboardState)
      = some (List.replicate 256 false) ∧
    (∃ flags, (xf_keyboard_release_all_keypress sampleKbd sampleCtx).map
        (fun c => c.KeyboardState) = some (List.replicate sampleCtx.KeyboardState.length false) ∧
      (xf_keyboard_release_all_keypress sampleKbd sampleCtx).map (fun c => c.inputCalls.getLast?)
        = some (some (InputCall.synchronize_event flags))) :=
  ⟨by decide, fun _ => (by decide : (0x12 : Nat) % 4294967296 < 2147483648), by decide,
    by decide,
    (release_all_keypress_releases sampleKbd sampleCtx (by decide)
      (fun _ => (by decide : (0x12 : Nat) % 4294967296 < 2147483648))).elim
      (fun flags h => ⟨flags, by rw [h]; rfl, by rw [h]; simp⟩)⟩

/-- The press of `a` (key code 38, up before) is sent with repeat FALSE, the press
of Left Shift (key code 50, already down) with repeat TRUE, and the release of
Left Shift with repeat TRUE; the entry of the key code is set and cleared. -/
theorem key_press_release_update_witness :
    (38 < sampleCtx.KeyboardState.length) ∧ 256 ≤ sampleCtx.KeyboardState.length ∧
    (∃ xfc2, xf_keyboard_key_press sampleKbd sampleCtx ⟨38, 0⟩ 0x61 = some xfc2 ∧
      xfc2.KeyboardState = sampleCtx.KeyboardState.set 38 true) ∧
    (xf_keyboard_key_press sampleKbd sampleCtx ⟨38, 0⟩ 0x61).map (fun c => c.inputCalls)
      = some [InputCall.keyboard_event_ex true false 0x1E] ∧
    (xf_keyboard_key_press sampleKbd sampleCtx ⟨50, 0⟩ 0xffe1).map (fun c => c.inputCalls)
      = some [InputCall.keyboard_event_ex true true 0x2A] ∧
    (xf_keyboard_key_release sampleKbd sampleCtx ⟨50, 0⟩ 0xffe1).map
        (fun c => (c.inputCalls, c.KeyboardState[50]?))
      = some ([InputCall.keyboard_event_ex false true 0x2A], some false) ∧
    sampleCtx.modifierMap.isSome ∧
    (∀ w, sampleKbd.XQueryPointer w % 4294967296 < 2147483648) ∧
    (∃ xfc2, xf_keyboard_key_release sampleKbd sampleCtx ⟨50, 0⟩ 0xffe1 = some xfc2 ∧
      xfc2.KeyboardState = sampleCtx.KeyboardState.set 50 false) :=
  ⟨by decide, by decide,
    (key_press_release_update sampleKbd sampleCtx ⟨38, 0⟩ 0x61 (by decide) (by decide)).1.elim
      (fun _ h1 => h1.elim (fun _ h2 => h2.elim (fun xfc2 h3 => ⟨xfc2, h3.2.1, h3.2.2.2.2.1⟩))),
    by decide, by decide, by decide, by decide,
    fun _ => (by decide : (0x12 : Nat) % 4294967296 < 2147483648),
    ((key_press_release_update sampleKbd sampleCtx ⟨50, 0⟩ 0xffe1 (by decide) (by decide)).2
      (by decide) (fun _ => (by decide : (0x12 : Nat) % 4294967296 < 2147483648))).elim
      (fun _ h1 => h1.elim (fun xfc2 h2 => ⟨xfc2, h2.2.1, h2.2.2.2.1⟩))⟩

end XfKeyboard
